import Mathlib

/-!
# Pipe blog middleware: `controller/blogmidware.go`

A shallow embedding of the request resolver `resolveBlog`, the view-model
assembler `fillCommon` and the five widget aggregators, together with the
properties of them that the design document states.

Conventions of the embedding.

* A Go `string` is a Lean `String`; the standard-library functions used by the
  file (`strings.Split`, `strings.TrimSpace`, `strings.Index`, `strconv.Atoi`)
  are modelled on the character list of the string.
* A Go `map[string]T` is an association list in which the newest binding of a
  key shadows the older ones (`GoMap.set` / `GoMap.get`); the code never
  deletes a key.
* A run-time panic (failed type assertion, nil dereference, index out of
  range) is the result `Res.panic`, which keeps the state reached so far.
* Calls to collaborators, log lines and routing actions are appended to the
  `trace` of the request context, in program order.
-/

namespace Pipe

/-! ## Go maps -/

/-- A Go `map[string]T`: newest binding first. -/
abbrev GoMap (α : Type) := List (String × α)

/-- Reading `m[k]`; `none` is the missing key. -/
def GoMap.get {α : Type} : GoMap α → String → Option α
  | [], _ => none
  | (k, v) :: m, key => if key = k then some v else GoMap.get m key

/-- The assignment `m[k] = v`. -/
def GoMap.set {α : Type} (m : GoMap α) (k : String) (v : α) : GoMap α :=
  (k, v) :: m

/-! ## Standard-library string functions -/

/-- Walks the text once for `strings.Split` with a non-empty separator: `skip`
counts the characters of a separator occurrence still to be dropped, `cur` is
the current piece, reversed. -/
def splitGo (sep : List Char) : Nat → List Char → List Char → List (List Char)
  | _, cur, [] => [cur.reverse]
  | skip + 1, cur, _ :: rest => splitGo sep skip cur rest
  | 0, cur, c :: rest =>
    if sep.isPrefixOf (c :: rest) then cur.reverse :: splitGo sep (sep.length - 1) [] rest
    else splitGo sep 0 (c :: cur) rest

/-- The Go function `strings.Split(s, sep)`: the pieces of `s` between the
successive non-overlapping occurrences of `sep`; with an empty `sep` the
string is exploded into its characters. -/
def Split (s sep : String) : List String :=
  if sep.data = [] then s.data.map (fun c => String.mk [c])
  else (splitGo sep.data 0 [] s.data).map String.mk

/-- The Go predicate `unicode.IsSpace`. -/
def isSpace (c : Char) : Bool :=
  let n := c.toNat
  (9 ≤ n && n ≤ 13) || n = 32 || n = 0x85 || n = 0xA0 || n = 0x1680 ||
  (0x2000 ≤ n && n ≤ 0x200A) || n = 0x2028 || n = 0x2029 || n = 0x202F ||
  n = 0x205F || n = 0x3000

/-- The Go function `strings.TrimSpace`: leading and trailing white space removed. -/
def TrimSpace (s : String) : String :=
  String.mk ((s.data.dropWhile isSpace).reverse.dropWhile isSpace).reverse

/-- Position of the first `c` in the list, counted from `i`. -/
def indexFrom (c : Char) : List Char → Int → Int
  | [], _ => -1
  | d :: rest, i => if d = c then i else indexFrom c rest (i + 1)

/-- The Go call `strings.Index(s, "?")`: position of the first `?`, or `-1`.
The position is counted in characters; it is `0`, positive or `-1` exactly when
the byte position is, and cuts the string at the same place. -/
def IndexQuestion (s : String) : Int :=
  indexFrom '?' s.data 0

/-- The Go slice expression `s[:end]` for `0 ≤ end`. -/
def sliceTo (s : String) (stop : Int) : String :=
  String.mk (s.data.take stop.toNat)

/-- Outcome of `strconv.ParseUint(s, 10, 64)`: a value, a syntax error, or a
range error. -/
inductive UintResult where
  | value (n : Nat)
  | syntaxError
  | rangeError
deriving DecidableEq, Repr

/-- The digit loop of `strconv.ParseUint(s, 10, 64)`, with `n` the value read
so far. Each character is classified first: one that is not a decimal digit is
a syntax error. Then, before the digit is taken in, `n` at or above the cutoff
`maxUint64/10 + 1`, or a sum `n*10 + d` above `maxUint64`, is a range error,
returned at once without reading the characters that follow. -/
def parseUintLoop : List Char → Nat → UintResult
  | [], n => UintResult.value n
  | c :: rest, n =>
    if 48 ≤ c.toNat ∧ c.toNat ≤ 57 then
      if (2 ^ 64 - 1) / 10 + 1 ≤ n then UintResult.rangeError
      else if 2 ^ 64 - 1 < n * 10 + (c.toNat - 48) then UintResult.rangeError
      else parseUintLoop rest (n * 10 + (c.toNat - 48))
    else UintResult.syntaxError

/-- Result of `strconv.Atoi`: the returned integer and whether `err` is non-nil. -/
structure AtoiResult where
  val : Int
  err : Bool
deriving DecidableEq, Repr

/-- The part of `strconv.ParseInt(s, 10, 0)` after the sign is removed, on a
64-bit platform. An empty digit string and a syntax error of `ParseUint`
return `0`; a range error of `ParseUint`, and a value beyond the `int64`
bound for the sign, return that bound; all of these with an error. -/
def atoiDigits (neg : Bool) (ds : List Char) : AtoiResult :=
  if ds = [] then ⟨0, true⟩
  else
    match parseUintLoop ds 0 with
    | UintResult.syntaxError => ⟨0, true⟩
    | UintResult.rangeError => if neg then ⟨-(2 ^ 63), true⟩ else ⟨2 ^ 63 - 1, true⟩
    | UintResult.value n =>
      if neg then
        if 2 ^ 63 < n then ⟨-(2 ^ 63), true⟩ else ⟨-(n : Int), false⟩
      else
        if 2 ^ 63 ≤ n then ⟨2 ^ 63 - 1, true⟩ else ⟨(n : Int), false⟩

/-- The Go function `strconv.Atoi` on a 64-bit platform: `ParseInt(s, 10, 0)`
converted to `int`. The short-string fast path of later Go versions returns
the same results. -/
def Atoi (s : String) : AtoiResult :=
  match s.data with
  | [] => ⟨0, true⟩
  | '-' :: ds => atoiDigits true ds
  | '+' :: ds => atoiDigits false ds
  | ds => atoiDigits false ds

/-! ## Data model -/

/-- The record `model.User`: the tenant owning a blog. -/
structure User where
  Name : String
  BlogID : Nat
deriving DecidableEq, Repr

/-- The record `model.Setting`, as far as this file reads it. -/
structure Setting where
  Name : String
  Value : String
deriving DecidableEq, Repr

/-- The record `model.Statistic`, as far as this file reads it. -/
structure Statistic where
  Name : String
  Value : String
deriving DecidableEq, Repr

/-- The record `model.Article`; `CreatedAt` stands for the `time.Time` stamp. -/
structure Article where
  Title : String
  Path : String
  CreatedAt : Nat
deriving DecidableEq, Repr

/-- The record `model.Category`. -/
structure Category where
  Title : String
deriving DecidableEq, Repr

/-- The record `model.Tag`. -/
structure Tag where
  Title : String
deriving DecidableEq, Repr

/-- The record `model.Comment`. -/
structure Comment where
  Content : String
  CreatedAt : Nat
deriving DecidableEq, Repr

/-- The record `model.Navigation`. -/
structure Navigation where
  Title : String
  URL : String
deriving DecidableEq, Repr

/-- Presentation record `ThemeCategory`. -/
structure ThemeCategory where
  Title : String
  URL : String
deriving DecidableEq, Repr

/-- Presentation record `ThemeTag`. -/
structure ThemeTag where
  Title : String
  URL : String
deriving DecidableEq, Repr

/-- Presentation record `ThemeAuthor`. -/
structure ThemeAuthor where
  Name : String
  URL : String
  AvatarURL : String
deriving DecidableEq, Repr

/-- Presentation record `ThemeArticle`. -/
structure ThemeArticle where
  Title : String
  URL : String
  CreatedAt : String
  Author : ThemeAuthor
deriving DecidableEq, Repr

/-- Presentation record `ThemeComment`. -/
structure ThemeComment where
  Title : String
  Content : String
  URL : String
  CreatedAt : String
  Author : ThemeAuthor
deriving DecidableEq, Repr

/-- A value of the settings projection `map[string]interface{}`: a plain
`string`, or a `template.HTML` (trusted markup). -/
inductive Val where
  | str (s : String)
  | html (s : String)
deriving DecidableEq, Repr

/-- A value stored in the `DataModel`. `iface none` is the nil interface that
reading a missing key of the settings projection yields; the five widget
constructors carry an allocated slice, which is empty but never nil when the
list is `[]`. -/
inductive DMVal where
  | iface (v : Option Val)
  | int (n : Int)
  | conf
  | i18nMap (m : GoMap String)
  | settingMap (m : GoMap Val)
  | statisticMap (m : GoMap Int)
  | navigations (l : List Navigation)
  | categories (l : List ThemeCategory)
  | tags (l : List ThemeTag)
  | articles (l : List ThemeArticle)
  | comments (l : List ThemeComment)
deriving DecidableEq, Repr

/-- The type `DataModel`, a `map[string]interface{}`. -/
abbrev DataModel := GoMap DMVal

/-- A value stored in `gin.Context.Keys`. `dataModelPtr` is the pointer to the
DataModel of the request, whose pointee is the field `Context.dataModel`. -/
inductive CtxVal where
  | user (u : User)
  | dataModelPtr
  | article (a : Article)
deriving DecidableEq, Repr

/-- What the handler does to the outside, in program order: a log line, a call
to a collaborator with its arguments, the rendering action `showArticleAction`
and the gin call `c.Next()`. What the rendering action and the later handlers
do to the context in turn lies outside this file and is not part of the
state. -/
inductive Event where
  | log (msg : String)
  | i18nLoad
  | GetUserByName (name : String)
  | GetSetting (category name : String) (blogID : Nat)
  | GetMessages (locale : String)
  | GetAllSettings (blogID : Nat)
  | GetAllStatistics (blogID : Nat)
  | GetBlogUsers (page : Int) (blogID : Nat)
  | GetNavigations (blogID : Nat)
  | GetCategories (size : Int) (blogID : Nat)
  | GetTags (size : Int) (blogID : Nat)
  | GetMostViewArticles (size : Int) (blogID : Nat)
  | GetRecentComments (size : Int) (blogID : Nat)
  | GetMostCommentArticles (size : Int) (blogID : Nat)
  | GetArticleByPath (path : String)
  | showArticleAction
  | next
deriving DecidableEq, Repr

/-- The part of `gin.Context` the file touches. `status` is the response status
written so far, `aborted` whether the handler chain was aborted. -/
structure Context where
  Params : List (String × String)
  RequestURI : String
  Keys : GoMap CtxVal
  dataModel : DataModel
  status : Option Nat
  aborted : Bool
  trace : List Event
deriving DecidableEq, Repr

/-- Everything the file takes from other packages. The setting names and
default sizes are constants of package `model`; `RuntimeMode` is
`util.Conf.RuntimeMode` and `Year` the current year; `Title` is
`strings.Title`, `Markdown` is `util.Markdown` and `humanizeTime` is
`humanize.Time`; `GetMessages` is `i18n.GetMessages`, listed in the order in
which the message map is ranged over; the remaining fields are the methods of
package `service`, with the arguments the file passes to them. A service is a
function of its arguments: each is called at most once during a request. -/
structure Env where
  SettingCategoryI18n : String
  SettingNameI18nLocale : String
  SettingNameBasicHeader : String
  SettingNameBasicFooter : String
  SettingNameBasicNoticeBoard : String
  SettingNameArticleSign : String
  SettingNameBasicFaviconURL : String
  SettingNameBasicLogoURL : String
  SettingNameBasicBlogURL : String
  SettingNameBasicBlogTitle : String
  SettingNameBasicMetaKeywords : String
  SettingNameBasicMetaDescription : String
  SettingNamePreferenceMostUseTagListSize : String
  SettingNamePreferenceMostViewArticleListSize : String
  SettingNamePreferenceRecentCommentListSize : String
  SettingNamePreferenceMostCommentArticleListSize : String
  SettingPreferenceMostUseTagListSizeDefault : Int
  SettingPreferenceMostViewArticleListSizeDefault : Int
  SettingPreferenceRecentCommentListSizeDefault : Int
  SettingPreferenceMostCommentArticleListSizeDefault : Int
  RuntimeMode : String
  Year : Int
  Title : String → String
  Markdown : String → String
  humanizeTime : Nat → String
  GetMessages : String → List (String × String)
  GetUserByName : String → Option User
  GetBlogUsers : Int → Nat → List User
  GetSetting : String → String → Nat → Option Setting
  GetAllSettings : Nat → List Setting
  GetAllStatistics : Nat → List Statistic
  GetNavigations : Nat → List Navigation
  GetCategories : Int → Nat → List Category
  GetTags : Int → Nat → List Tag
  GetMostViewArticles : Int → Nat → List Article
  GetRecentComments : Int → Nat → List Comment
  GetMostCommentArticles : Int → Nat → List Article
  GetArticleByPath : String → Option Article

/-! ## Handlers as state transformers that may panic -/

/-- Outcome of running a piece of the handler: it returns `a` in state `c`, or
it panics in state `c`. -/
inductive Res (α : Type) where
  | ok (a : α) (c : Context)
  | panic (c : Context)
deriving DecidableEq, Repr

/-- The state in which a run ended. -/
def Res.ctx {α : Type} : Res α → Context
  | Res.ok _ c => c
  | Res.panic c => c

/-- A piece of handler code. -/
def Handler (α : Type) : Type := Context → Res α

/-- Returning a value without touching the state. -/
def Handler.pure {α : Type} (a : α) : Handler α := fun c => Res.ok a c

/-- Sequencing; a panic stops the run. -/
def Handler.bind {α β : Type} (x : Handler α) (f : α → Handler β) : Handler β := fun c =>
  match x c with
  | Res.ok a c1 => f a c1
  | Res.panic c1 => Res.panic c1

instance : Monad Handler where
  pure := Handler.pure
  bind := Handler.bind

/-- Appends an event to the trace. -/
def emit (e : Event) : Handler Unit := fun c => Res.ok () { c with trace := c.trace ++ [e] }

/-- A run-time panic. -/
def goPanic {α : Type} : Handler α := fun c => Res.panic c

/-- The type assertion `v.(string)` on a value read from the settings
projection: it panics on a missing key (nil interface) and on `template.HTML`. -/
def assertString : Option Val → Handler String
  | some (Val.str s) => pure s
  | _ => goPanic

/-- The assignment `(*dataModel)[k] = v`. -/
def setData (k : String) (v : DMVal) : Handler Unit := fun c =>
  Res.ok () { c with dataModel := c.dataModel.set k v }

/-- The gin call `c.Param(key)`: the first parameter of that name, else `""`. -/
def Param (key : String) : Handler String := fun c =>
  Res.ok ((GoMap.get c.Params key).getD "") c

/-- The gin call `c.Set(key, v)`. -/
def ctxSet (key : String) (v : CtxVal) : Handler Unit := fun c =>
  Res.ok () { c with Keys := c.Keys.set key v }

/-- The gin call `c.Get(key)`. -/
def ctxGet (key : String) : Handler (Option CtxVal) := fun c =>
  Res.ok (c.Keys.get key) c

/-- The gin call `c.Abort()`. -/
def Abort : Handler Unit := fun c => Res.ok () { c with aborted := true }

/-- The gin call `c.AbortWithStatus(code)`. -/
def AbortWithStatus (code : Nat) : Handler Unit := fun c =>
  Res.ok () { c with status := some code, aborted := true }

/-- Reading `c.Request.RequestURI`. -/
def getRequestURI : Handler String := fun c => Res.ok c.RequestURI c

/-- The constant `http.StatusNotFound`. -/
def StatusNotFound : Nat := 404

/-- The constant `math.MaxInt8`. -/
def MaxInt8 : Int := 127

/-! ## The widget aggregators -/

/-- The log line written when a list-size setting is not an integer. -/
def settingLogLine (name value : String) : String :=
  "setting [" ++ name ++ "] should be an integer, actual is [" ++ value ++ "]"

/-- The log line written when a statistic is not an integer. -/
def statisticLogLine (name value : String) : String :=
  "statistic [" ++ name ++ "] should be an integer, actual is [" ++ value ++ "]"

/-- The author literal written into every article and comment widget entry. -/
def vanessa : ThemeAuthor :=
  { Name := "Vanessa"
    URL := "http://localhost:5879/blogs/pipe/vanessa"
    AvatarURL := "https://img.hacpai.com/20170818zhixiaoyun.jpeg" }

/-- Loop of `fillMostUseCategories`; the blog URL is read, and asserted to be
a string, once per category. -/
def categoriesLoop (E : Env) (settingMap : GoMap Val) :
    List Category → List ThemeCategory → Handler (List ThemeCategory)
  | [], themeCategories => pure themeCategories
  | category :: rest, themeCategories => do
    let blogURL ← assertString (settingMap.get E.SettingNameBasicBlogURL)
    let themeCategory : ThemeCategory :=
      { Title := category.Title, URL := blogURL ++ "/" ++ category.Title }
    categoriesLoop E settingMap rest (themeCategories ++ [themeCategory])

/-- Go function `fillMostUseCategories`. -/
def fillMostUseCategories (E : Env) (settingMap : GoMap Val) (blogID : Nat) : Handler Unit := do
  emit (Event.GetCategories MaxInt8 blogID)
  let categories := E.GetCategories MaxInt8 blogID
  let themeCategories ← categoriesLoop E settingMap categories []
  setData "MostUseCategories" (DMVal.categories themeCategories)

/-- Loop of `fillMostUseTags`. -/
def tagsLoop (E : Env) (settingMap : GoMap Val) :
    List Tag → List ThemeTag → Handler (List ThemeTag)
  | [], themeTags => pure themeTags
  | tag :: rest, themeTags => do
    let blogURL ← assertString (settingMap.get E.SettingNameBasicBlogURL)
    let themeTag : ThemeTag := { Title := tag.Title, URL := blogURL ++ "/tags/" ++ tag.Title }
    tagsLoop E settingMap rest (themeTags ++ [themeTag])

/-- The shared opening of the four size-configured aggregators: read the size
setting `name` as a string, parse it, and on a parse error log one line and
take `dflt`. -/
def listSize (settingMap : GoMap Val) (name : String) (dflt : Int) : Handler Int := do
  let value ← assertString (settingMap.get name)
  let r := Atoi value
  if r.err then
    emit (Event.log (settingLogLine name value))
    pure dflt
  else
    pure r.val

/-- Go function `fillMostUseTags`. -/
def fillMostUseTags (E : Env) (settingMap : GoMap Val) (blogID : Nat) : Handler Unit := do
  let tagSize ← listSize settingMap E.SettingNamePreferenceMostUseTagListSize
    E.SettingPreferenceMostUseTagListSizeDefault
  emit (Event.GetTags tagSize blogID)
  let tags := E.GetTags tagSize blogID
  let themeTags ← tagsLoop E settingMap tags []
  setData "MostUseTags" (DMVal.tags themeTags)

/-- Loop shared by `fillMostViewArticles` and `fillMostCommentArticles`, whose
bodies are the same. -/
def articlesLoop (E : Env) (settingMap : GoMap Val) :
    List Article → List ThemeArticle → Handler (List ThemeArticle)
  | [], themeArticles => pure themeArticles
  | article :: rest, themeArticles => do
    let author := vanessa
    let blogURL ← assertString (settingMap.get E.SettingNameBasicBlogURL)
    let themeArticle : ThemeArticle :=
      { Title := article.Title
        URL := blogURL ++ article.Path
        CreatedAt := E.humanizeTime article.CreatedAt
        Author := author }
    articlesLoop E settingMap rest (themeArticles ++ [themeArticle])

/-- Go function `fillMostViewArticles`. -/
def fillMostViewArticles (E : Env) (settingMap : GoMap Val) (blogID : Nat) : Handler Unit := do
  let mostViewArticleSize ← listSize settingMap E.SettingNamePreferenceMostViewArticleListSize
    E.SettingPreferenceMostViewArticleListSizeDefault
  emit (Event.GetMostViewArticles mostViewArticleSize blogID)
  let mostViewArticles := E.GetMostViewArticles mostViewArticleSize blogID
  let themeMostViewArticles ← articlesLoop E settingMap mostViewArticles []
  setData "MostViewArticles" (DMVal.articles themeMostViewArticles)

/-- Entry of the recent-comments widget built from one comment. -/
def themeCommentOf (E : Env) (comment : Comment) : ThemeComment :=
  { Title := E.Markdown comment.Content
    Content := ""
    URL := "todo"
    CreatedAt := E.humanizeTime comment.CreatedAt
    Author := vanessa }

/-- Loop of `fillRecentComments`; it reads no setting. -/
def commentsLoop (E : Env) : List Comment → List ThemeComment → List ThemeComment
  | [], themeRecentComments => themeRecentComments
  | comment :: rest, themeRecentComments =>
    commentsLoop E rest (themeRecentComments ++ [themeCommentOf E comment])

/-- Go function `fillRecentComments`. -/
def fillRecentComments (E : Env) (settingMap : GoMap Val) (blogID : Nat) : Handler Unit := do
  let recentCommentSize ← listSize settingMap E.SettingNamePreferenceRecentCommentListSize
    E.SettingPreferenceRecentCommentListSizeDefault
  emit (Event.GetRecentComments recentCommentSize blogID)
  let recentComments := E.GetRecentComments recentCommentSize blogID
  let themeRecentComments := commentsLoop E recentComments []
  setData "RecentComments" (DMVal.comments themeRecentComments)

/-- Go function `fillMostCommentArticles`. -/
def fillMostCommentArticles (E : Env) (settingMap : GoMap Val) (blogID : Nat) : Handler Unit := do
  let mostCommentArticleSize ← listSize settingMap
    E.SettingNamePreferenceMostCommentArticleListSize
    E.SettingPreferenceMostCommentArticleListSizeDefault
  emit (Event.GetMostCommentArticles mostCommentArticleSize blogID)
  let mostCommentArticles := E.GetMostCommentArticles mostCommentArticleSize blogID
  let themeMostCommentArticles ← articlesLoop E settingMap mostCommentArticles []
  setData "MostCommentArticles" (DMVal.articles themeMostCommentArticles)

/-! ## The view-model assembler -/

/-- Loop over the localized messages, in the order the map is ranged over. -/
def i18nLoop (E : Env) : List (String × String) → GoMap String → GoMap String
  | [], i18nMap => i18nMap
  | (key, value) :: rest, i18nMap =>
    i18nLoop E rest ((i18nMap.set (E.Title key) value).set key value)

/-- Loop over the settings of the blog. -/
def settingsLoop (E : Env) : List Setting → GoMap Val → GoMap Val
  | [], settingMap => settingMap
  | setting :: rest, settingMap =>
    settingsLoop E rest
      ((settingMap.set (E.Title setting.Name) (Val.str setting.Value)).set setting.Name
        (Val.str setting.Value))

/-- The statement `settingMap[strings.Title(name)] = template.HTML(settingMap[name].(string))`. -/
def markTrusted (E : Env) (name : String) (settingMap : GoMap Val) : Handler (GoMap Val) := do
  let s ← assertString (settingMap.get name)
  pure (settingMap.set (E.Title name) (Val.html s))

/-- Loop over the statistics of the blog: a value that does not parse is
logged, and the count returned by the failed parse is stored all the same. -/
def statisticsLoop (E : Env) : List Statistic → GoMap Int → Handler (GoMap Int)
  | [], statisticMap => pure statisticMap
  | statistic :: rest, statisticMap => do
    let r := Atoi statistic.Value
    let count := r.val
    (if r.err then emit (Event.log (statisticLogLine statistic.Name statistic.Value))
     else pure ())
    statisticsLoop E rest
      ((statisticMap.set (E.Title statistic.Name) count).set statistic.Name count)

/-- Go function `fillCommon`. -/
def fillCommon (E : Env) : Handler Unit := do
  (if "dev" = E.RuntimeMode then emit Event.i18nLoad else pure ())
  let blogAdminVal ← ctxGet "blogAdmin"
  match blogAdminVal with
  | some (CtxVal.user blogAdmin) =>
    let blogID := blogAdmin.BlogID
    let dataModelVal ← ctxGet "dataModel"
    match dataModelVal with
    | some CtxVal.dataModelPtr =>
      emit (Event.GetSetting E.SettingCategoryI18n E.SettingNameI18nLocale blogID)
      match E.GetSetting E.SettingCategoryI18n E.SettingNameI18nLocale blogID with
      | some localeSetting =>
        emit (Event.GetMessages localeSetting.Value)
        let i18ns := E.GetMessages localeSetting.Value
        let i18nMap := i18nLoop E i18ns []
        setData "I18n" (DMVal.i18nMap i18nMap)
        emit (Event.GetAllSettings blogID)
        let settings := E.GetAllSettings blogID
        let settingMap := settingsLoop E settings []
        let settingMap ← markTrusted E E.SettingNameBasicHeader settingMap
        let settingMap ← markTrusted E E.SettingNameBasicFooter settingMap
        let settingMap ← markTrusted E E.SettingNameBasicNoticeBoard settingMap
        let settingMap ← markTrusted E E.SettingNameArticleSign settingMap
        setData "Setting" (DMVal.settingMap settingMap)
        emit (Event.GetAllStatistics blogID)
        let statistics := E.GetAllStatistics blogID
        let statisticMap ← statisticsLoop E statistics []
        setData "Statistic" (DMVal.statisticMap statisticMap)
        setData "FaviconURL" (DMVal.iface (settingMap.get E.SettingNameBasicFaviconURL))
        setData "LogoURL" (DMVal.iface (settingMap.get E.SettingNameBasicLogoURL))
        setData "BlogURL" (DMVal.iface (settingMap.get E.SettingNameBasicBlogURL))
        setData "Title" (DMVal.iface (settingMap.get E.SettingNameBasicBlogTitle))
        setData "MetaKeywords" (DMVal.iface (settingMap.get E.SettingNameBasicMetaKeywords))
        setData "MetaDescription" (DMVal.iface (settingMap.get E.SettingNameBasicMetaDescription))
        setData "Conf" DMVal.conf
        setData "Year" (DMVal.int E.Year)
        emit (Event.GetBlogUsers 1 blogID)
        let users := E.GetBlogUsers 1 blogID
        setData "UserCount" (DMVal.int users.length)
        emit (Event.GetNavigations blogID)
        setData "Navigations" (DMVal.navigations (E.GetNavigations blogID))
        fillMostUseCategories E settingMap blogID
        fillMostUseTags E settingMap blogID
        fillMostViewArticles E settingMap blogID
        fillRecentComments E settingMap blogID
        fillMostCommentArticles E settingMap blogID
        ctxSet "dataModel" CtxVal.dataModelPtr
      | none => goPanic
    | _ => goPanic
  | _ => goPanic

/-! ## The tenant and content resolver -/

/-- The index expression `xs[1]`, which panics on a shorter slice. -/
def index1 : List String → Handler String
  | _ :: x :: _ => pure x
  | _ => goPanic

/-- The query-string cut of `resolveBlog`, applied to the trimmed path. -/
def cutQuery (path : String) : String :=
  let stop := IndexQuestion path
  if 0 < stop then sliceTo path stop else path

/-- Go function `resolveBlog`. -/
def resolveBlog (E : Env) : Handler Unit := do
  let username ← Param "username"
  if "" = username then
    AbortWithStatus StatusNotFound
  else
    emit (Event.GetUserByName username)
    match E.GetUserByName username with
    | none => AbortWithStatus StatusNotFound
    | some blogAdmin =>
      ctxSet "blogAdmin" (CtxVal.user blogAdmin)
      fillCommon E
      let requestURI ← getRequestURI
      let path ← index1 (Split requestURI username)
      let path := TrimSpace path
      let path := cutQuery path
      emit (Event.GetArticleByPath path)
      match E.GetArticleByPath path with
      | none => emit Event.next
      | some article =>
        ctxSet "article" (CtxVal.article article)
        emit Event.showArticleAction
        Abort

/-! ## A concrete environment for evaluation -/

/-- The Go helper `isSeparator` of package `strings`, on ASCII: everything but
letters, digits and the underscore separates words. -/
def isSeparator (c : Char) : Bool :=
  !(c.isAlphanum || c = '_')

/-- Walk of `strings.Title`: a character that follows a separator is upper-cased. -/
def titleGo : Char → List Char → List Char
  | _, [] => []
  | prev, r :: rest => (if isSeparator prev then r.toUpper else r) :: titleGo r rest

/-- The Go function `strings.Title` on ASCII text. -/
def asciiTitle (s : String) : String :=
  String.mk (titleGo ' ' s.data)

/-- An environment for the examples: setting names spelled as the blog
platform spells them, sample default sizes, the ASCII `strings.Title`, and
services that return nothing; the examples override the services they need. -/
def baseEnv : Env :=
  { SettingCategoryI18n := "i18n"
    SettingNameI18nLocale := "i18nLocale"
    SettingNameBasicHeader := "basicHeader"
    SettingNameBasicFooter := "basicFooter"
    SettingNameBasicNoticeBoard := "basicNoticeBoard"
    SettingNameArticleSign := "articleSign"
    SettingNameBasicFaviconURL := "basicFaviconURL"
    SettingNameBasicLogoURL := "basicLogoURL"
    SettingNameBasicBlogURL := "basicBlogURL"
    SettingNameBasicBlogTitle := "basicBlogTitle"
    SettingNameBasicMetaKeywords := "basicMetaKeywords"
    SettingNameBasicMetaDescription := "basicMetaDescription"
    SettingNamePreferenceMostUseTagListSize := "preferenceMostUseTagListSize"
    SettingNamePreferenceMostViewArticleListSize := "preferenceMostViewArticleListSize"
    SettingNamePreferenceRecentCommentListSize := "preferenceRecentCommentListSize"
    SettingNamePreferenceMostCommentArticleListSize := "preferenceMostCommentArticleListSize"
    SettingPreferenceMostUseTagListSizeDefault := 15
    SettingPreferenceMostViewArticleListSizeDefault := 7
    SettingPreferenceRecentCommentListSizeDefault := 5
    SettingPreferenceMostCommentArticleListSizeDefault := 9
    RuntimeMode := "prod"
    Year := 2017
    Title := asciiTitle
    Markdown := fun s => s
    humanizeTime := fun _ => "now"
    GetMessages := fun _ => []
    GetUserByName := fun _ => none
    GetBlogUsers := fun _ _ => []
    GetSetting := fun _ _ _ => none
    GetAllSettings := fun _ => []
    GetAllStatistics := fun _ => []
    GetNavigations := fun _ => []
    GetCategories := fun _ _ => []
    GetTags := fun _ _ => []
    GetMostViewArticles := fun _ _ => []
    GetRecentComments := fun _ _ => []
    GetMostCommentArticles := fun _ _ => []
    GetArticleByPath := fun _ => none }

/-- Settings of a blog, for the examples; the last two share the key
`BasicLogoURL`, the capitalized form of `basicLogoURL`. -/
def sampleSettings : List Setting :=
  [ ⟨"i18nLocale", "en_US"⟩, ⟨"basicHeader", "<b>h</b>"⟩, ⟨"basicFooter", "<i>f</i>"⟩,
    ⟨"basicNoticeBoard", "hello"⟩, ⟨"articleSign", "-- a"⟩,
    ⟨"basicBlogURL", "https://alice.example"⟩,
    ⟨"preferenceMostUseTagListSize", "3"⟩, ⟨"preferenceMostViewArticleListSize", "x"⟩,
    ⟨"preferenceRecentCommentListSize", "4"⟩, ⟨"preferenceMostCommentArticleListSize", "6"⟩,
    ⟨"BasicLogoURL", "old.png"⟩, ⟨"basicLogoURL", "logo.png"⟩ ]

/-- A request context carrying the DataModel pointer that the surrounding
middleware installs, and nothing else. -/
def freshContext (uri username : String) : Context :=
  { Params := [("username", username)]
    RequestURI := uri
    Keys := [("dataModel", CtxVal.dataModelPtr)]
    dataModel := []
    status := none
    aborted := false
    trace := [] }

/-- Two tenants, one article, one category and three statistics, for the
examples: `alice` owns blog 1 and `bob` blog 2; the article store answers the
path `/hello-world`; the second statistic is not a number, and the third is a
digit run beyond the 64-bit range followed by a letter. -/
def sampleEnv : Env :=
  { baseEnv with
    GetUserByName := fun name =>
      if name = "alice" then some ⟨"alice", 1⟩
      else if name = "bob" then some ⟨"bob", 2⟩ else none
    GetSetting := fun _ name _ => some ⟨name, "en_US"⟩
    GetAllSettings := fun _ => sampleSettings
    GetAllStatistics := fun _ =>
      [⟨"views", "7"⟩, ⟨"comments", "abc"⟩, ⟨"likes", "99999999999999999999x"⟩]
    GetCategories := fun _ _ => [⟨"Go"⟩]
    GetArticleByPath := fun path =>
      if path = "/hello-world" then some ⟨"Hello", "/hello-world", 0⟩ else none }

/-- The context in which `fillCommon` runs for `alice`: tenant and DataModel
pointer are set, and the DataModel has prior content. -/
def aliceContext : Context :=
  { Params := [("username", "alice")]
    RequestURI := "/alice/hello-world"
    Keys := [("blogAdmin", CtxVal.user ⟨"alice", 1⟩), ("dataModel", CtxVal.dataModelPtr)]
    dataModel := [("MostUseTags", DMVal.conf)]
    status := none
    aborted := false
    trace := [] }

/-- The paths handed to the article lookup during a run. -/
def lookupPaths : List Event → List String
  | [] => []
  | Event.GetArticleByPath path :: rest => path :: lookupPaths rest
  | _ :: rest => lookupPaths rest

/-- The settings projection built from `sampleSettings`. -/
def sampleSettingMap : GoMap Val :=
  settingsLoop baseEnv sampleSettings []

/-! ## Closed forms used to state the results -/

/-- The size a size-configured aggregator asks for, given the string `value` of
its setting and its default `dflt`. -/
def sizeUsed (value : String) (dflt : Int) : Int :=
  if (Atoi value).err then dflt else (Atoi value).val

/-- The log lines a size-configured aggregator writes for the string `value`. -/
def sizeLog (name value : String) : List Event :=
  if (Atoi value).err then [Event.log (settingLogLine name value)] else []

/-- Projection of a category for a blog URL `u`. -/
def themeCategoryOf (u : String) (x : Category) : ThemeCategory :=
  { Title := x.Title, URL := u ++ "/" ++ x.Title }

/-- Projection of a tag for a blog URL `u`. -/
def themeTagOf (u : String) (x : Tag) : ThemeTag :=
  { Title := x.Title, URL := u ++ "/tags/" ++ x.Title }

/-- Projection of an article for a blog URL `u`. -/
def themeArticleOf (E : Env) (u : String) (x : Article) : ThemeArticle :=
  { Title := x.Title, URL := u ++ x.Path, CreatedAt := E.humanizeTime x.CreatedAt,
    Author := vanessa }

/-- The dual-cased projection loop shared by the settings and the statistics:
each entry `(name, v)`, in order, is written under `T name` and then under `name`. -/
def dualLoop {α : Type} (T : String → String) : List (String × α) → GoMap α → GoMap α
  | [], m => m
  | (name, v) :: rest, m => dualLoop T rest ((m.set (T name) v).set name v)

/-- The log lines of the statistics loop: one per statistic that does not parse. -/
def statisticLogs : List Statistic → List Event
  | [] => []
  | s :: rest =>
    (if (Atoi s.Value).err then [Event.log (statisticLogLine s.Name s.Value)] else []) ++
      statisticLogs rest

/-- The settings projection after the four trusted-HTML assignments, the plain
settings holding the strings `vH`, `vF`, `vN`, `vA`. -/
def trustedMap (E : Env) (m0 : GoMap Val) (vH vF vN vA : String) : GoMap Val :=
  (((m0.set (E.Title E.SettingNameBasicHeader) (Val.html vH)).set
    (E.Title E.SettingNameBasicFooter) (Val.html vF)).set
    (E.Title E.SettingNameBasicNoticeBoard) (Val.html vN)).set
    (E.Title E.SettingNameArticleSign) (Val.html vA)

/-- Events that belong to routing and content resolution, not to assembly. -/
def Event.isRouting : Event → Bool
  | Event.GetUserByName _ => true
  | Event.GetArticleByPath _ => true
  | Event.showArticleAction => true
  | Event.next => true
  | _ => false

/-- The names of the four trusted-HTML settings. -/
def trustedNames (E : Env) : List String :=
  [E.SettingNameBasicHeader, E.SettingNameBasicFooter, E.SettingNameBasicNoticeBoard,
   E.SettingNameArticleSign]

/-- The names of the settings whose value `fillCommon` asserts to be a string. -/
def requiredNames (E : Env) : List String :=
  trustedNames E ++
  [E.SettingNameBasicBlogURL, E.SettingNamePreferenceMostUseTagListSize,
   E.SettingNamePreferenceMostViewArticleListSize, E.SettingNamePreferenceRecentCommentListSize,
   E.SettingNamePreferenceMostCommentArticleListSize]

/-- The standing assumption of the design on a request that reaches `fillCommon`
for the tenant `blogAdmin`: the context holds the tenant and the DataModel
pointer, the locale setting exists, every setting that is read as a string is
among the settings of the blog, and none of those names is itself the
capitalized name of a trusted-HTML setting (which holds `template.HTML`). -/
structure Ready (E : Env) (c : Context) (blogAdmin : User) : Prop where
  admin : c.Keys.get "blogAdmin" = some (CtxVal.user blogAdmin)
  model : c.Keys.get "dataModel" = some CtxVal.dataModelPtr
  locale : (E.GetSetting E.SettingCategoryI18n E.SettingNameI18nLocale blogAdmin.BlogID).isSome
  settings : ∀ r ∈ requiredNames E, ∃ s ∈ E.GetAllSettings blogAdmin.BlogID, s.Name = r
  plain : ∀ r ∈ requiredNames E, ∀ t ∈ trustedNames E, r ≠ E.Title t

/-- The DataModel a completed `fillCommon` leaves, starting from `dm`: the
assignments of the function in program order, for the locale `locale`, the
final settings projection `settingMap`, the blog URL `u` and the four size
values. -/
def assembledModel (E : Env) (blogID : Nat) (locale : String) (settingMap : GoMap Val)
    (u vTag vView vRecent vMost : String) (dm : DataModel) : DataModel :=
  ((((((((((((((((((dm.set "I18n" (DMVal.i18nMap (i18nLoop E (E.GetMessages locale) []))).set
    "Setting" (DMVal.settingMap settingMap)).set
    "Statistic" (DMVal.statisticMap (dualLoop E.Title
      ((E.GetAllStatistics blogID).map (fun s => (s.Name, (Atoi s.Value).val))) []))).set
    "FaviconURL" (DMVal.iface (settingMap.get E.SettingNameBasicFaviconURL))).set
    "LogoURL" (DMVal.iface (settingMap.get E.SettingNameBasicLogoURL))).set
    "BlogURL" (DMVal.iface (settingMap.get E.SettingNameBasicBlogURL))).set
    "Title" (DMVal.iface (settingMap.get E.SettingNameBasicBlogTitle))).set
    "MetaKeywords" (DMVal.iface (settingMap.get E.SettingNameBasicMetaKeywords))).set
    "MetaDescription" (DMVal.iface (settingMap.get E.SettingNameBasicMetaDescription))).set
    "Conf" DMVal.conf).set
    "Year" (DMVal.int E.Year)).set
    "UserCount" (DMVal.int (E.GetBlogUsers 1 blogID).length)).set
    "Navigations" (DMVal.navigations (E.GetNavigations blogID))).set
    "MostUseCategories"
      (DMVal.categories ((E.GetCategories MaxInt8 blogID).map (themeCategoryOf u)))).set
    "MostUseTags"
      (DMVal.tags ((E.GetTags (sizeUsed vTag E.SettingPreferenceMostUseTagListSizeDefault)
        blogID).map (themeTagOf u)))).set
    "MostViewArticles"
      (DMVal.articles ((E.GetMostViewArticles
        (sizeUsed vView E.SettingPreferenceMostViewArticleListSizeDefault) blogID).map
        (themeArticleOf E u)))).set
    "RecentComments"
      (DMVal.comments ((E.GetRecentComments
        (sizeUsed vRecent E.SettingPreferenceRecentCommentListSizeDefault) blogID).map
        (themeCommentOf E)))).set
    "MostCommentArticles"
      (DMVal.articles ((E.GetMostCommentArticles
        (sizeUsed vMost E.SettingPreferenceMostCommentArticleListSizeDefault) blogID).map
        (themeArticleOf E u))))

/-- The events of a completed `fillCommon`, in program order. -/
def assemblyTrace (E : Env) (blogID : Nat) (locale vTag vView vRecent vMost : String) :
    List Event :=
  (if "dev" = E.RuntimeMode then [Event.i18nLoad] else []) ++
  [Event.GetSetting E.SettingCategoryI18n E.SettingNameI18nLocale blogID,
   Event.GetMessages locale, Event.GetAllSettings blogID, Event.GetAllStatistics blogID] ++
  statisticLogs (E.GetAllStatistics blogID) ++
  [Event.GetBlogUsers 1 blogID, Event.GetNavigations blogID,
   Event.GetCategories MaxInt8 blogID] ++
  sizeLog E.SettingNamePreferenceMostUseTagListSize vTag ++
  [Event.GetTags (sizeUsed vTag E.SettingPreferenceMostUseTagListSizeDefault) blogID] ++
  sizeLog E.SettingNamePreferenceMostViewArticleListSize vView ++
  [Event.GetMostViewArticles (sizeUsed vView E.SettingPreferenceMostViewArticleListSizeDefault)
    blogID] ++
  sizeLog E.SettingNamePreferenceRecentCommentListSize vRecent ++
  [Event.GetRecentComments (sizeUsed vRecent E.SettingPreferenceRecentCommentListSizeDefault)
    blogID] ++
  sizeLog E.SettingNamePreferenceMostCommentArticleListSize vMost ++
  [Event.GetMostCommentArticles
    (sizeUsed vMost E.SettingPreferenceMostCommentArticleListSizeDefault) blogID]

/-- The nine DataModel keys a theme template requires. -/
def requiredKeys : List String :=
  ["Setting", "I18n", "Statistic", "Navigations", "MostUseCategories", "MostUseTags",
   "MostViewArticles", "RecentComments", "MostCommentArticles"]

/-- Outcome of a loop that leaves the state alone: a value, or a panic. -/
def outcome {α : Type} (o : Option α) : Handler α := fun c =>
  match o with
  | some a => Res.ok a c
  | none => Res.panic c

/-- The step from `c` to `c1` wrote the DataModel key `key`, appended events
that are not routing events, and changed nothing else. -/
def Wrote (key : String) (c c1 : Context) : Prop :=
  ∃ v evs, c1 = { c with dataModel := c.dataModel.set key v, trace := c.trace ++ evs } ∧
    ∀ e ∈ evs, Event.isRouting e = false

/-! ## Basic facts -/

theorem GoMap.get_set {α : Type} (m : GoMap α) (k key : String) (v : α) :
    GoMap.get (GoMap.set m k v) key = if key = k then some v else GoMap.get m key := rfl

theorem Handler.bind_run {α β : Type} (x : Handler α) (f : α → Handler β) (c : Context) :
    (x >>= f) c = match x c with
      | Res.ok a c1 => f a c1
      | Res.panic c1 => Res.panic c1 := rfl

theorem Handler.pure_run {α : Type} (a : α) (c : Context) :
    (Pure.pure a : Handler α) c = Res.ok a c := rfl

theorem assertString_str (s : String) (c : Context) :
    assertString (some (Val.str s)) c = Res.ok s c := rfl

theorem assertString_none (c : Context) :
    assertString none c = Res.panic c := rfl

theorem listSize_str (settingMap : GoMap Val) (name value : String) (dflt : Int) (c : Context)
    (h : settingMap.get name = some (Val.str value)) :
    listSize settingMap name dflt c =
      Res.ok (sizeUsed value dflt) { c with trace := c.trace ++ sizeLog name value } := by
  by_cases he : (Atoi value).err = true <;>
    simp [listSize, Handler.bind_run, h, assertString_str, he, emit, Handler.pure_run, sizeUsed,
      sizeLog]

theorem listSize_none (settingMap : GoMap Val) (name : String) (dflt : Int) (c : Context)
    (h : settingMap.get name = none) :
    listSize settingMap name dflt c = Res.panic c := by
  simp only [listSize, Handler.bind_run, h, assertString_none]

theorem categoriesLoop_str (E : Env) (settingMap : GoMap Val) (u : String)
    (h : settingMap.get E.SettingNameBasicBlogURL = some (Val.str u))
    (categories : List Category) (acc : List ThemeCategory) (c : Context) :
    categoriesLoop E settingMap categories acc c =
      Res.ok (acc ++ categories.map (themeCategoryOf u)) c := by
  induction categories generalizing acc with
  | nil => simp [categoriesLoop, Handler.pure_run]
  | cons x rest ih =>
    simp only [categoriesLoop, Handler.bind_run, h, assertString_str, ih]
    simp [themeCategoryOf]

theorem tagsLoop_str (E : Env) (settingMap : GoMap Val) (u : String)
    (h : settingMap.get E.SettingNameBasicBlogURL = some (Val.str u))
    (tags : List Tag) (acc : List ThemeTag) (c : Context) :
    tagsLoop E settingMap tags acc c = Res.ok (acc ++ tags.map (themeTagOf u)) c := by
  induction tags generalizing acc with
  | nil => simp [tagsLoop, Handler.pure_run]
  | cons x rest ih =>
    simp only [tagsLoop, Handler.bind_run, h, assertString_str, ih]
    simp [themeTagOf]

theorem articlesLoop_str (E : Env) (settingMap : GoMap Val) (u : String)
    (h : settingMap.get E.SettingNameBasicBlogURL = some (Val.str u))
    (articles : List Article) (acc : List ThemeArticle) (c : Context) :
    articlesLoop E settingMap articles acc c =
      Res.ok (acc ++ articles.map (themeArticleOf E u)) c := by
  induction articles generalizing acc with
  | nil => simp [articlesLoop, Handler.pure_run]
  | cons x rest ih =>
    simp only [articlesLoop, Handler.bind_run, h, assertString_str, ih]
    simp [themeArticleOf]

theorem commentsLoop_eq (E : Env) (comments : List Comment) (acc : List ThemeComment) :
    commentsLoop E comments acc = acc ++ comments.map (themeCommentOf E) := by
  induction comments generalizing acc with
  | nil => simp [commentsLoop]
  | cons x rest ih => simp [commentsLoop, ih]

theorem fillMostUseCategories_str (E : Env) (settingMap : GoMap Val) (blogID : Nat) (u : String)
    (c : Context) (h : settingMap.get E.SettingNameBasicBlogURL = some (Val.str u)) :
    fillMostUseCategories E settingMap blogID c =
      Res.ok ()
        { c with
          dataModel := c.dataModel.set "MostUseCategories"
            (DMVal.categories ((E.GetCategories MaxInt8 blogID).map (themeCategoryOf u)))
          trace := c.trace ++ [Event.GetCategories MaxInt8 blogID] } := by
  simp [fillMostUseCategories, Handler.bind_run, emit, categoriesLoop_str E settingMap u h, setData]

theorem fillMostUseTags_str (E : Env) (settingMap : GoMap Val) (blogID : Nat) (u v : String)
    (c : Context) (h : settingMap.get E.SettingNameBasicBlogURL = some (Val.str u))
    (hv : settingMap.get E.SettingNamePreferenceMostUseTagListSize = some (Val.str v)) :
    fillMostUseTags E settingMap blogID c =
      Res.ok ()
        { c with
          dataModel := c.dataModel.set "MostUseTags"
            (DMVal.tags ((E.GetTags (sizeUsed v E.SettingPreferenceMostUseTagListSizeDefault)
              blogID).map (themeTagOf u)))
          trace := c.trace ++ (sizeLog E.SettingNamePreferenceMostUseTagListSize v ++
            [Event.GetTags (sizeUsed v E.SettingPreferenceMostUseTagListSizeDefault) blogID]) } := by
  simp [fillMostUseTags, Handler.bind_run, listSize_str _ _ _ _ _ hv, emit,
    tagsLoop_str E settingMap u h, setData]

theorem fillMostViewArticles_str (E : Env) (settingMap : GoMap Val) (blogID : Nat) (u v : String)
    (c : Context) (h : settingMap.get E.SettingNameBasicBlogURL = some (Val.str u))
    (hv : settingMap.get E.SettingNamePreferenceMostViewArticleListSize = some (Val.str v)) :
    fillMostViewArticles E settingMap blogID c =
      Res.ok ()
        { c with
          dataModel := c.dataModel.set "MostViewArticles"
            (DMVal.articles ((E.GetMostViewArticles
              (sizeUsed v E.SettingPreferenceMostViewArticleListSizeDefault) blogID).map
              (themeArticleOf E u)))
          trace := c.trace ++ (sizeLog E.SettingNamePreferenceMostViewArticleListSize v ++
            [Event.GetMostViewArticles
              (sizeUsed v E.SettingPreferenceMostViewArticleListSizeDefault) blogID]) } := by
  simp [fillMostViewArticles, Handler.bind_run, listSize_str _ _ _ _ _ hv, emit,
    articlesLoop_str E settingMap u h, setData]

theorem fillRecentComments_str (E : Env) (settingMap : GoMap Val) (blogID : Nat) (v : String)
    (c : Context)
    (hv : settingMap.get E.SettingNamePreferenceRecentCommentListSize = some (Val.str v)) :
    fillRecentComments E settingMap blogID c =
      Res.ok ()
        { c with
          dataModel := c.dataModel.set "RecentComments"
            (DMVal.comments ((E.GetRecentComments
              (sizeUsed v E.SettingPreferenceRecentCommentListSizeDefault) blogID).map
              (themeCommentOf E)))
          trace := c.trace ++ (sizeLog E.SettingNamePreferenceRecentCommentListSize v ++
            [Event.GetRecentComments
              (sizeUsed v E.SettingPreferenceRecentCommentListSizeDefault) blogID]) } := by
  simp [fillRecentComments, Handler.bind_run, listSize_str _ _ _ _ _ hv, emit,
    commentsLoop_eq, setData]

theorem fillMostCommentArticles_str (E : Env) (settingMap : GoMap Val) (blogID : Nat)
    (u v : String) (c : Context)
    (h : settingMap.get E.SettingNameBasicBlogURL = some (Val.str u))
    (hv : settingMap.get E.SettingNamePreferenceMostCommentArticleListSize = some (Val.str v)) :
    fillMostCommentArticles E settingMap blogID c =
      Res.ok ()
        { c with
          dataModel := c.dataModel.set "MostCommentArticles"
            (DMVal.articles ((E.GetMostCommentArticles
              (sizeUsed v E.SettingPreferenceMostCommentArticleListSizeDefault) blogID).map
              (themeArticleOf E u)))
          trace := c.trace ++ (sizeLog E.SettingNamePreferenceMostCommentArticleListSize v ++
            [Event.GetMostCommentArticles
              (sizeUsed v E.SettingPreferenceMostCommentArticleListSizeDefault) blogID]) } := by
  simp [fillMostCommentArticles, Handler.bind_run, listSize_str _ _ _ _ _ hv, emit,
    articlesLoop_str E settingMap u h, setData]

/-! ## The widget aggregators: size settings and projections -/

/-- C6. Each of the four size-configured aggregators, run on a settings
projection that holds a string `v` under its size setting (and, for the tag
and article widgets, a string `u` under the blog URL, which they read for
every item), completes and writes its DataModel key. When `strconv.Atoi v`
fails it logs exactly one line and calls its collaborator with its own default
size; when `v` parses as `n` it logs nothing and calls the collaborator with
exactly `n`. -/
theorem sized_aggregators_parse_or_default (E : Env) (settingMap : GoMap Val) (blogID : Nat)
    (c : Context) :
    (∀ u v, settingMap.get E.SettingNameBasicBlogURL = some (Val.str u) →
      settingMap.get E.SettingNamePreferenceMostUseTagListSize = some (Val.str v) →
      fillMostUseTags E settingMap blogID c =
        if (Atoi v).err then
          Res.ok ()
            { c with
              dataModel := c.dataModel.set "MostUseTags"
                (DMVal.tags ((E.GetTags E.SettingPreferenceMostUseTagListSizeDefault blogID).map
                  (themeTagOf u)))
              trace := c.trace ++
                [Event.log (settingLogLine E.SettingNamePreferenceMostUseTagListSize v),
                 Event.GetTags E.SettingPreferenceMostUseTagListSizeDefault blogID] }
        else
          Res.ok ()
            { c with
              dataModel := c.dataModel.set "MostUseTags"
                (DMVal.tags ((E.GetTags (Atoi v).val blogID).map (themeTagOf u)))
              trace := c.trace ++ [Event.GetTags (Atoi v).val blogID] }) ∧
    (∀ u v, settingMap.get E.SettingNameBasicBlogURL = some (Val.str u) →
      settingMap.get E.SettingNamePreferenceMostViewArticleListSize = some (Val.str v) →
      fillMostViewArticles E settingMap blogID c =
        if (Atoi v).err then
          Res.ok ()
            { c with
              dataModel := c.dataModel.set "MostViewArticles"
                (DMVal.articles ((E.GetMostViewArticles
                  E.SettingPreferenceMostViewArticleListSizeDefault blogID).map
                  (themeArticleOf E u)))
              trace := c.trace ++
                [Event.log (settingLogLine E.SettingNamePreferenceMostViewArticleListSize v),
                 Event.GetMostViewArticles E.SettingPreferenceMostViewArticleListSizeDefault
                   blogID] }
        else
          Res.ok ()
            { c with
              dataModel := c.dataModel.set "MostViewArticles"
                (DMVal.articles ((E.GetMostViewArticles (Atoi v).val blogID).map
                  (themeArticleOf E u)))
              trace := c.trace ++ [Event.GetMostViewArticles (Atoi v).val blogID] }) ∧
    (∀ v, settingMap.get E.SettingNamePreferenceRecentCommentListSize = some (Val.str v) →
      fillRecentComments E settingMap blogID c =
        if (Atoi v).err then
          Res.ok ()
            { c with
              dataModel := c.dataModel.set "RecentComments"
                (DMVal.comments ((E.GetRecentComments
                  E.SettingPreferenceRecentCommentListSizeDefault blogID).map
                  (themeCommentOf E)))
              trace := c.trace ++
                [Event.log (settingLogLine E.SettingNamePreferenceRecentCommentListSize v),
                 Event.GetRecentComments E.SettingPreferenceRecentCommentListSizeDefault
                   blogID] }
        else
          Res.ok ()
            { c with
              dataModel := c.dataModel.set "RecentComments"
                (DMVal.comments ((E.GetRecentComments (Atoi v).val blogID).map
                  (themeCommentOf E)))
              trace := c.trace ++ [Event.GetRecentComments (Atoi v).val blogID] }) ∧
    (∀ u v, settingMap.get E.SettingNameBasicBlogURL = some (Val.str u) →
      settingMap.get E.SettingNamePreferenceMostCommentArticleListSize = some (Val.str v) →
      fillMostCommentArticles E settingMap blogID c =
        if (Atoi v).err then
          Res.ok ()
            { c with
              dataModel := c.dataModel.set "MostCommentArticles"
                (DMVal.articles ((E.GetMostCommentArticles
                  E.SettingPreferenceMostCommentArticleListSizeDefault blogID).map
                  (themeArticleOf E u)))
              trace := c.trace ++
                [Event.log (settingLogLine E.SettingNamePreferenceMostCommentArticleListSize v),
                 Event.GetMostCommentArticles
                   E.SettingPreferenceMostCommentArticleListSizeDefault blogID] }
        else
          Res.ok ()
            { c with
              dataModel := c.dataModel.set "MostCommentArticles"
                (DMVal.articles ((E.GetMostCommentArticles (Atoi v).val blogID).map
                  (themeArticleOf E u)))
              trace := c.trace ++ [Event.GetMostCommentArticles (Atoi v).val blogID] }) := by
  refine ⟨fun u v hu hv => ?_, fun u v hu hv => ?_, fun v hv => ?_, fun u v hu hv => ?_⟩
  · rw [fillMostUseTags_str E settingMap blogID u v c hu hv]
    by_cases he : (Atoi v).err = true <;> simp [he, sizeUsed, sizeLog]
  · rw [fillMostViewArticles_str E settingMap blogID u v c hu hv]
    by_cases he : (Atoi v).err = true <;> simp [he, sizeUsed, sizeLog]
  · rw [fillRecentComments_str E settingMap blogID v c hv]
    by_cases he : (Atoi v).err = true <;> simp [he, sizeUsed, sizeLog]
  · rw [fillMostCommentArticles_str E settingMap blogID u v c hu hv]
    by_cases he : (Atoi v).err = true <;> simp [he, sizeUsed, sizeLog]

/-- C6, at a concrete input: with the size `"x"` the most-viewed widget logs one
line and asks for its default `7`; with the size `"3"` the tag widget logs
nothing and asks for `3` tags. -/
theorem sized_aggregators_parse_or_default_witness :
    sampleSettingMap.get "preferenceMostViewArticleListSize" = some (Val.str "x") ∧
    (Atoi "x").err = true ∧
    (fillMostViewArticles baseEnv sampleSettingMap 1 (freshContext "/alice" "alice")).ctx.trace =
      [Event.log "setting [preferenceMostViewArticleListSize] should be an integer, actual is [x]",
       Event.GetMostViewArticles 7 1] ∧
    sampleSettingMap.get "preferenceMostUseTagListSize" = some (Val.str "3") ∧
    Atoi "3" = ⟨3, false⟩ ∧
    (fillMostUseTags baseEnv sampleSettingMap 1 (freshContext "/alice" "alice")).ctx.trace =
      [Event.GetTags 3 1] := by
  have h := sized_aggregators_parse_or_default baseEnv sampleSettingMap 1
    (freshContext "/alice" "alice")
  refine ⟨by decide, by decide, ?_, by decide, by decide, ?_⟩
  · rw [h.2.1 "https://alice.example" "x" (by decide) (by decide)]; decide
  · rw [h.1 "https://alice.example" "3" (by decide) (by decide)]; decide

/-- C7, as the code has it. When the list-size setting of a size-configured
aggregator is absent from the settings projection, the type assertion on the
missing entry panics at once: the aggregator stops in the state it was entered
in, so it has logged nothing, called no collaborator, substituted no default
and written no DataModel key. -/
theorem sized_aggregators_panic_when_absent (E : Env) (settingMap : GoMap Val) (blogID : Nat)
    (c : Context) :
    (settingMap.get E.SettingNamePreferenceMostUseTagListSize = none →
      fillMostUseTags E settingMap blogID c = Res.panic c) ∧
    (settingMap.get E.SettingNamePreferenceMostViewArticleListSize = none →
      fillMostViewArticles E settingMap blogID c = Res.panic c) ∧
    (settingMap.get E.SettingNamePreferenceRecentCommentListSize = none →
      fillRecentComments E settingMap blogID c = Res.panic c) ∧
    (settingMap.get E.SettingNamePreferenceMostCommentArticleListSize = none →
      fillMostCommentArticles E settingMap blogID c = Res.panic c) := by
  refine ⟨fun h => ?_, fun h => ?_, fun h => ?_, fun h => ?_⟩
  · simp [fillMostUseTags, Handler.bind_run, listSize_none _ _ _ _ h]
  · simp [fillMostViewArticles, Handler.bind_run, listSize_none _ _ _ _ h]
  · simp [fillRecentComments, Handler.bind_run, listSize_none _ _ _ _ h]
  · simp [fillMostCommentArticles, Handler.bind_run, listSize_none _ _ _ _ h]

/-- C7 at a concrete input: a projection holding only the blog URL makes the
most-commented widget panic in the context it was given. -/
theorem sized_aggregators_panic_when_absent_witness :
    GoMap.get [("basicBlogURL", Val.str "https://alice.example")]
      "preferenceMostCommentArticleListSize" = none ∧
    fillMostCommentArticles baseEnv [("basicBlogURL", Val.str "https://alice.example")] 1
      (freshContext "/alice" "alice") = Res.panic (freshContext "/alice" "alice") :=
  ⟨by decide,
   (sized_aggregators_panic_when_absent baseEnv
      [("basicBlogURL", Val.str "https://alice.example")] 1
      (freshContext "/alice" "alice")).2.2.2 (by decide)⟩

/-- C7 as stated fails: with the tag list size absent from the projection,
`fillMostUseTags` does not complete, so it neither substitutes the default nor
writes `MostUseTags`. -/
theorem fillMostUseTags_absent_size_fails :
    GoMap.get [("basicBlogURL", Val.str "https://alice.example")]
      "preferenceMostUseTagListSize" = none ∧
    (¬ ∃ c1, fillMostUseTags baseEnv [("basicBlogURL", Val.str "https://alice.example")] 1
      (freshContext "/alice" "alice") = Res.ok () c1) ∧
    (fillMostUseTags baseEnv [("basicBlogURL", Val.str "https://alice.example")] 1
      (freshContext "/alice" "alice")).ctx.dataModel.get "MostUseTags" = none := by
  have h : fillMostUseTags baseEnv [("basicBlogURL", Val.str "https://alice.example")] 1
      (freshContext "/alice" "alice") = Res.panic (freshContext "/alice" "alice") := by decide
  refine ⟨by decide, ?_, by decide⟩
  rintro ⟨c1, h1⟩
  rw [h] at h1
  cases h1

/-- C10. With the blog URL setting holding the string `u`, `fillMostUseCategories`
writes under `MostUseCategories` one entry per category returned by the
collaborator, in the same order, with the category title and the URL
`u + "/" + title`; `fillMostUseTags` (whose size setting holds a string `v`)
writes under `MostUseTags` one entry per returned tag, in the same order, with
the tag title and the URL `u + "/tags/" + title`. -/
theorem category_and_tag_urls (E : Env) (settingMap : GoMap Val) (blogID : Nat) (u : String)
    (c : Context) (hu : settingMap.get E.SettingNameBasicBlogURL = some (Val.str u)) :
    (∃ c1, fillMostUseCategories E settingMap blogID c = Res.ok () c1 ∧
      c1.dataModel.get "MostUseCategories" =
        some (DMVal.categories ((E.GetCategories MaxInt8 blogID).map
          (fun x => { Title := x.Title, URL := u ++ "/" ++ x.Title })))) ∧
    (∀ v, settingMap.get E.SettingNamePreferenceMostUseTagListSize = some (Val.str v) →
      ∃ c1, fillMostUseTags E settingMap blogID c = Res.ok () c1 ∧
        c1.dataModel.get "MostUseTags" =
          some (DMVal.tags ((E.GetTags
            (if (Atoi v).err then E.SettingPreferenceMostUseTagListSizeDefault else (Atoi v).val)
            blogID).map (fun x => { Title := x.Title, URL := u ++ "/tags/" ++ x.Title })))) := by
  refine ⟨⟨_, fillMostUseCategories_str E settingMap blogID u c hu, ?_⟩,
    fun v hv => ⟨_, fillMostUseTags_str E settingMap blogID u v c hu hv, ?_⟩⟩
  · simp [GoMap.get_set]
    intro a _
    rfl
  · simp [GoMap.get_set, sizeUsed]
    intro a _
    rfl

/-- C10 at the input of the design document: blog URL `https://alice.example`
and the single category `Go` give exactly one entry, with URL
`https://alice.example/Go`; and the single tag `lean` gives one entry with URL
`https://alice.example/tags/lean`. -/
theorem category_and_tag_urls_witness :
    sampleSettingMap.get "basicBlogURL" = some (Val.str "https://alice.example") ∧
    (fillMostUseCategories { baseEnv with GetCategories := fun _ _ => [⟨"Go"⟩] } sampleSettingMap 1
      (freshContext "/alice" "alice")).ctx.dataModel.get "MostUseCategories" =
      some (DMVal.categories [{ Title := "Go", URL := "https://alice.example/Go" }]) ∧
    (fillMostUseTags { baseEnv with GetTags := fun _ _ => [⟨"lean"⟩] } sampleSettingMap 1
      (freshContext "/alice" "alice")).ctx.dataModel.get "MostUseTags" =
      some (DMVal.tags [{ Title := "lean", URL := "https://alice.example/tags/lean" }]) := by
  obtain ⟨⟨c1, h1, h2⟩, -⟩ := category_and_tag_urls
    { baseEnv with GetCategories := fun _ _ => [⟨"Go"⟩] } sampleSettingMap 1
    "https://alice.example" (freshContext "/alice" "alice") (by decide)
  obtain ⟨-, h3⟩ := category_and_tag_urls
    { baseEnv with GetTags := fun _ _ => [⟨"lean"⟩] } sampleSettingMap 1
    "https://alice.example" (freshContext "/alice" "alice") (by decide)
  obtain ⟨c2, h4, h5⟩ := h3 "3" (by decide)
  refine ⟨by decide, ?_, ?_⟩
  · rw [h1]
    simpa [Res.ctx] using h2
  · rw [h4]
    simpa [Res.ctx] using h5

/-! ## The dual-cased loops -/

theorem settingsLoop_eq (E : Env) (settings : List Setting) (m : GoMap Val) :
    settingsLoop E settings m =
      dualLoop E.Title (settings.map (fun s => (s.Name, Val.str s.Value))) m := by
  induction settings generalizing m with
  | nil => rfl
  | cons s rest ih => simp [settingsLoop, dualLoop, ih]

theorem statisticsLoop_run (E : Env) (statistics : List Statistic) (m : GoMap Int) (c : Context) :
    statisticsLoop E statistics m c =
      Res.ok (dualLoop E.Title (statistics.map (fun s => (s.Name, (Atoi s.Value).val))) m)
        { c with trace := c.trace ++ statisticLogs statistics } := by
  induction statistics generalizing m c with
  | nil => simp [statisticsLoop, dualLoop, statisticLogs, Handler.pure_run]
  | cons s rest ih =>
    by_cases he : (Atoi s.Value).err = true <;>
      simp [statisticsLoop, dualLoop, statisticLogs, Handler.bind_run, Handler.pure_run, emit, he,
        ih]

theorem dualLoop_append {α : Type} (T : String → String) (l1 l2 : List (String × α))
    (m : GoMap α) : dualLoop T (l1 ++ l2) m = dualLoop T l2 (dualLoop T l1 m) := by
  induction l1 generalizing m with
  | nil => rfl
  | cons e rest ih =>
    obtain ⟨n, v⟩ := e
    simp [dualLoop, ih]

/-- A key that no entry writes keeps its binding. -/
theorem dualLoop_get_of_not_written {α : Type} (T : String → String) (l : List (String × α))
    (m : GoMap α) (k : String) (h : ∀ e ∈ l, k ≠ e.1 ∧ k ≠ T e.1) :
    (dualLoop T l m).get k = m.get k := by
  induction l generalizing m with
  | nil => rfl
  | cons e rest ih =>
    obtain ⟨n, v⟩ := e
    have h1 := h (n, v) (List.mem_cons_self _ _)
    simp only [dualLoop]
    rw [ih _ (fun e he => h e (List.mem_cons_of_mem _ he))]
    simp [GoMap.get_set, h1.1, h1.2]

/-- The last entry that writes a key decides its binding. -/
theorem dualLoop_get_last {α : Type} (T : String → String) (pre post : List (String × α))
    (n : String) (v : α) (m : GoMap α) (k : String) (hk : k = n ∨ k = T n)
    (h : ∀ e ∈ post, k ≠ e.1 ∧ k ≠ T e.1) :
    (dualLoop T (pre ++ (n, v) :: post) m).get k = some v := by
  rw [dualLoop_append]
  simp only [dualLoop]
  rw [dualLoop_get_of_not_written T post _ k h]
  rcases hk with rfl | rfl <;> simp [GoMap.get_set]

/-- After the loop a key either keeps the binding it had, no entry having
written it, or holds the value of an entry that writes it. -/
theorem dualLoop_get_mem {α : Type} (T : String → String) (l : List (String × α))
    (m : GoMap α) (k : String) :
    ((dualLoop T l m).get k = m.get k ∧ ∀ e ∈ l, k ≠ e.1 ∧ k ≠ T e.1) ∨
      ∃ e ∈ l, (k = e.1 ∨ k = T e.1) ∧ (dualLoop T l m).get k = some e.2 := by
  induction l generalizing m with
  | nil => exact Or.inl ⟨rfl, by simp⟩
  | cons e rest ih =>
    obtain ⟨n, v⟩ := e
    simp only [dualLoop]
    rcases ih ((m.set (T n) v).set n v) with ⟨h1, h2⟩ | ⟨e, he, hw, h1⟩
    · by_cases hk : k = n ∨ k = T n
      · refine Or.inr ⟨(n, v), List.mem_cons_self _ _, hk, ?_⟩
        rw [h1]
        rcases hk with rfl | rfl <;> simp [GoMap.get_set]
      · push_neg at hk
        refine Or.inl ⟨?_, ?_⟩
        · rw [h1]
          simp [GoMap.get_set, hk.1, hk.2]
        · intro e he
          rcases List.mem_cons.1 he with rfl | he
          · exact hk
          · exact h2 e he
    · exact Or.inr ⟨e, List.mem_cons_of_mem _ he, hw, h1⟩

/-- A key that some entry writes holds, after the loop, the value of an entry
that writes it. -/
theorem dualLoop_get_written {α : Type} (T : String → String) (l : List (String × α))
    (m : GoMap α) (k : String) (h : ∃ e ∈ l, k = e.1 ∨ k = T e.1) :
    ∃ e ∈ l, (k = e.1 ∨ k = T e.1) ∧ (dualLoop T l m).get k = some e.2 := by
  rcases dualLoop_get_mem T l m k with ⟨_, h2⟩ | h3
  · obtain ⟨e, he, hw⟩ := h
    rcases hw with hw | hw
    · exact absurd hw (h2 e he).1
    · exact absurd hw (h2 e he).2
  · exact h3

/-- A setting of the list is bound to a string in the projection after the loop. -/
theorem settingsLoop_get_str (E : Env) (settings : List Setting) (k : String)
    (h : ∃ s ∈ settings, s.Name = k) :
    ∃ v, (settingsLoop E settings []).get k = some (Val.str v) := by
  rw [settingsLoop_eq]
  obtain ⟨s, hs, rfl⟩ := h
  obtain ⟨e, he, -, h1⟩ := dualLoop_get_written E.Title
    (settings.map (fun s => (s.Name, Val.str s.Value))) [] s.Name
    ⟨(s.Name, Val.str s.Value), List.mem_map.2 ⟨s, hs, rfl⟩, Or.inl rfl⟩
  obtain ⟨t, _, rfl⟩ := List.mem_map.1 he
  exact ⟨t.Value, h1⟩

/-! ## The assembler in closed form -/

theorem markTrusted_str (E : Env) (name v : String) (m : GoMap Val) (c : Context)
    (h : m.get name = some (Val.str v)) :
    markTrusted E name m c = Res.ok (m.set (E.Title name) (Val.html v)) c := by
  simp [markTrusted, Handler.bind_run, h, assertString_str, Handler.pure_run]

/-- When every type assertion of `fillCommon` meets a string, the function
completes with the DataModel and the trace of the closed forms. -/
theorem fillCommon_run (E : Env) (c : Context) (blogAdmin : User) (localeSetting : Setting)
    (vH vF vN vA u vTag vView vRecent vMost : String)
    (hadmin : c.Keys.get "blogAdmin" = some (CtxVal.user blogAdmin))
    (hmodel : c.Keys.get "dataModel" = some CtxVal.dataModelPtr)
    (hloc : E.GetSetting E.SettingCategoryI18n E.SettingNameI18nLocale blogAdmin.BlogID =
      some localeSetting)
    (hH : (settingsLoop E (E.GetAllSettings blogAdmin.BlogID) []).get E.SettingNameBasicHeader =
      some (Val.str vH))
    (hF : ((settingsLoop E (E.GetAllSettings blogAdmin.BlogID) []).set
      (E.Title E.SettingNameBasicHeader) (Val.html vH)).get E.SettingNameBasicFooter =
      some (Val.str vF))
    (hN : (((settingsLoop E (E.GetAllSettings blogAdmin.BlogID) []).set
      (E.Title E.SettingNameBasicHeader) (Val.html vH)).set
      (E.Title E.SettingNameBasicFooter) (Val.html vF)).get E.SettingNameBasicNoticeBoard =
      some (Val.str vN))
    (hA : ((((settingsLoop E (E.GetAllSettings blogAdmin.BlogID) []).set
      (E.Title E.SettingNameBasicHeader) (Val.html vH)).set
      (E.Title E.SettingNameBasicFooter) (Val.html vF)).set
      (E.Title E.SettingNameBasicNoticeBoard) (Val.html vN)).get E.SettingNameArticleSign =
      some (Val.str vA))
    (hu : (trustedMap E (settingsLoop E (E.GetAllSettings blogAdmin.BlogID) []) vH vF vN vA).get
      E.SettingNameBasicBlogURL = some (Val.str u))
    (hTag : (trustedMap E (settingsLoop E (E.GetAllSettings blogAdmin.BlogID) []) vH vF vN vA).get
      E.SettingNamePreferenceMostUseTagListSize = some (Val.str vTag))
    (hView : (trustedMap E (settingsLoop E (E.GetAllSettings blogAdmin.BlogID) []) vH vF vN vA).get
      E.SettingNamePreferenceMostViewArticleListSize = some (Val.str vView))
    (hRecent :
      (trustedMap E (settingsLoop E (E.GetAllSettings blogAdmin.BlogID) []) vH vF vN vA).get
      E.SettingNamePreferenceRecentCommentListSize = some (Val.str vRecent))
    (hMost : (trustedMap E (settingsLoop E (E.GetAllSettings blogAdmin.BlogID) []) vH vF vN vA).get
      E.SettingNamePreferenceMostCommentArticleListSize = some (Val.str vMost)) :
    fillCommon E c =
      Res.ok ()
        { c with
          Keys := c.Keys.set "dataModel" CtxVal.dataModelPtr
          dataModel := assembledModel E blogAdmin.BlogID localeSetting.Value
            (trustedMap E (settingsLoop E (E.GetAllSettings blogAdmin.BlogID) []) vH vF vN vA)
            u vTag vView vRecent vMost c.dataModel
          trace := c.trace ++
            assemblyTrace E blogAdmin.BlogID localeSetting.Value vTag vView vRecent vMost } := by
  unfold trustedMap at hu hTag hView hRecent hMost
  by_cases hdev : "dev" = E.RuntimeMode <;>
    simp [fillCommon, Handler.bind_run, Handler.pure_run, ctxGet, ctxSet, emit, setData, hdev,
      hadmin, hmodel, hloc, markTrusted_str _ _ _ _ _ hH, markTrusted_str _ _ _ _ _ hF,
      markTrusted_str _ _ _ _ _ hN, markTrusted_str _ _ _ _ _ hA, statisticsLoop_run,
      fillMostUseCategories_str _ _ _ _ _ hu, fillMostUseTags_str _ _ _ _ _ _ hu hTag,
      fillMostViewArticles_str _ _ _ _ _ _ hu hView, fillRecentComments_str _ _ _ _ _ hRecent,
      fillMostCommentArticles_str _ _ _ _ _ _ hu hMost, assembledModel, assemblyTrace, trustedMap]

/-! ## What a completed run must have gone through -/

theorem assertString_cases (o : Option Val) :
    (∃ v, o = some (Val.str v)) ∨ ∀ c, assertString o c = Res.panic c := by
  rcases o with _ | v
  · exact Or.inr (fun _ => rfl)
  · cases v with
    | str v => exact Or.inl ⟨v, rfl⟩
    | html v => exact Or.inr (fun _ => rfl)

theorem listSize_panic (settingMap : GoMap Val) (name : String) (dflt : Int) (c : Context)
    (h : ∀ c, assertString (settingMap.get name) c = Res.panic c) :
    listSize settingMap name dflt c = Res.panic c := by
  simp only [listSize, Handler.bind_run, h]

theorem categoriesLoop_cases (E : Env) (settingMap : GoMap Val) (categories : List Category)
    (acc : List ThemeCategory) :
    ∃ o, ∀ c, categoriesLoop E settingMap categories acc c = outcome o c := by
  rcases assertString_cases (settingMap.get E.SettingNameBasicBlogURL) with ⟨u, hu⟩ | hp
  · exact ⟨some _, fun c => categoriesLoop_str E settingMap u hu categories acc c⟩
  · cases categories with
    | nil => exact ⟨some acc, fun _ => rfl⟩
    | cons x rest =>
      exact ⟨none, fun c => by simp only [categoriesLoop, Handler.bind_run, hp, outcome]⟩

theorem tagsLoop_cases (E : Env) (settingMap : GoMap Val) (tags : List Tag)
    (acc : List ThemeTag) :
    ∃ o, ∀ c, tagsLoop E settingMap tags acc c = outcome o c := by
  rcases assertString_cases (settingMap.get E.SettingNameBasicBlogURL) with ⟨u, hu⟩ | hp
  · exact ⟨some _, fun c => tagsLoop_str E settingMap u hu tags acc c⟩
  · cases tags with
    | nil => exact ⟨some acc, fun _ => rfl⟩
    | cons x rest =>
      exact ⟨none, fun c => by simp only [tagsLoop, Handler.bind_run, hp, outcome]⟩

theorem articlesLoop_cases (E : Env) (settingMap : GoMap Val) (articles : List Article)
    (acc : List ThemeArticle) :
    ∃ o, ∀ c, articlesLoop E settingMap articles acc c = outcome o c := by
  rcases assertString_cases (settingMap.get E.SettingNameBasicBlogURL) with ⟨u, hu⟩ | hp
  · exact ⟨some _, fun c => articlesLoop_str E settingMap u hu articles acc c⟩
  · cases articles with
    | nil => exact ⟨some acc, fun _ => rfl⟩
    | cons x rest =>
      exact ⟨none, fun c => by simp only [articlesLoop, Handler.bind_run, hp, outcome]⟩

theorem sizeLog_not_routing (name value : String) :
    ∀ e ∈ sizeLog name value, Event.isRouting e = false := by
  intro e he
  unfold sizeLog at he
  split at he
  · rw [List.mem_singleton.1 he]; rfl
  · cases he

theorem statisticLogs_not_routing (statistics : List Statistic) :
    ∀ e ∈ statisticLogs statistics, Event.isRouting e = false := by
  induction statistics with
  | nil => intro e he; cases he
  | cons s rest ih =>
    intro e he
    unfold statisticLogs at he
    rcases List.mem_append.1 he with h1 | h1
    · split at h1
      · rw [List.mem_singleton.1 h1]; rfl
      · cases h1
    · exact ih e h1

theorem fillMostUseCategories_inv (E : Env) (settingMap : GoMap Val) (blogID : Nat)
    (c c1 : Context) (h : fillMostUseCategories E settingMap blogID c = Res.ok () c1) :
    Wrote "MostUseCategories" c c1 := by
  obtain ⟨o, ho⟩ := categoriesLoop_cases E settingMap (E.GetCategories MaxInt8 blogID) []
  simp only [fillMostUseCategories, Handler.bind_run, emit, ho] at h
  cases o with
  | none => simp [outcome] at h
  | some l =>
    simp only [outcome, setData, Res.ok.injEq, true_and] at h
    exact ⟨_, _, h.symm, by simp [Event.isRouting]⟩

theorem fillMostUseTags_inv (E : Env) (settingMap : GoMap Val) (blogID : Nat)
    (c c1 : Context) (h : fillMostUseTags E settingMap blogID c = Res.ok () c1) :
    Wrote "MostUseTags" c c1 := by
  rcases assertString_cases (settingMap.get E.SettingNamePreferenceMostUseTagListSize) with
    ⟨v, hv⟩ | hp
  · obtain ⟨o, ho⟩ := tagsLoop_cases E settingMap
      (E.GetTags (sizeUsed v E.SettingPreferenceMostUseTagListSizeDefault) blogID) []
    simp only [fillMostUseTags, Handler.bind_run, listSize_str _ _ _ _ _ hv, emit, ho] at h
    cases o with
    | none => simp [outcome] at h
    | some l =>
      simp only [outcome, setData, Res.ok.injEq, true_and, List.append_assoc] at h
      refine ⟨_, _, h.symm, ?_⟩
      intro e he
      rcases List.mem_append.1 he with h1 | h1
      · exact sizeLog_not_routing _ _ e h1
      · rw [List.mem_singleton.1 h1]; rfl
  · simp [fillMostUseTags, Handler.bind_run, listSize_panic _ _ _ _ hp] at h

theorem fillMostViewArticles_inv (E : Env) (settingMap : GoMap Val) (blogID : Nat)
    (c c1 : Context) (h : fillMostViewArticles E settingMap blogID c = Res.ok () c1) :
    Wrote "MostViewArticles" c c1 := by
  rcases assertString_cases (settingMap.get E.SettingNamePreferenceMostViewArticleListSize) with
    ⟨v, hv⟩ | hp
  · obtain ⟨o, ho⟩ := articlesLoop_cases E settingMap
      (E.GetMostViewArticles (sizeUsed v E.SettingPreferenceMostViewArticleListSizeDefault)
        blogID) []
    simp only [fillMostViewArticles, Handler.bind_run, listSize_str _ _ _ _ _ hv, emit, ho] at h
    cases o with
    | none => simp [outcome] at h
    | some l =>
      simp only [outcome, setData, Res.ok.injEq, true_and, List.append_assoc] at h
      refine ⟨_, _, h.symm, ?_⟩
      intro e he
      rcases List.mem_append.1 he with h1 | h1
      · exact sizeLog_not_routing _ _ e h1
      · rw [List.mem_singleton.1 h1]; rfl
  · simp [fillMostViewArticles, Handler.bind_run, listSize_panic _ _ _ _ hp] at h

theorem fillRecentComments_inv (E : Env) (settingMap : GoMap Val) (blogID : Nat)
    (c c1 : Context) (h : fillRecentComments E settingMap blogID c = Res.ok () c1) :
    Wrote "RecentComments" c c1 := by
  rcases assertString_cases (settingMap.get E.SettingNamePreferenceRecentCommentListSize) with
    ⟨v, hv⟩ | hp
  · rw [fillRecentComments_str E settingMap blogID v c hv] at h
    simp only [Res.ok.injEq, true_and] at h
    refine ⟨_, _, h.symm, ?_⟩
    intro e he
    rcases List.mem_append.1 he with h1 | h1
    · exact sizeLog_not_routing _ _ e h1
    · rw [List.mem_singleton.1 h1]; rfl
  · simp [fillRecentComments, Handler.bind_run, listSize_panic _ _ _ _ hp] at h

theorem fillMostCommentArticles_inv (E : Env) (settingMap : GoMap Val) (blogID : Nat)
    (c c1 : Context) (h : fillMostCommentArticles E settingMap blogID c = Res.ok () c1) :
    Wrote "MostCommentArticles" c c1 := by
  rcases assertString_cases
    (settingMap.get E.SettingNamePreferenceMostCommentArticleListSize) with ⟨v, hv⟩ | hp
  · obtain ⟨o, ho⟩ := articlesLoop_cases E settingMap
      (E.GetMostCommentArticles
        (sizeUsed v E.SettingPreferenceMostCommentArticleListSizeDefault) blogID) []
    simp only [fillMostCommentArticles, Handler.bind_run, listSize_str _ _ _ _ _ hv, emit,
      ho] at h
    cases o with
    | none => simp [outcome] at h
    | some l =>
      simp only [outcome, setData, Res.ok.injEq, true_and, List.append_assoc] at h
      refine ⟨_, _, h.symm, ?_⟩
      intro e he
      rcases List.mem_append.1 he with h1 | h1
      · exact sizeLog_not_routing _ _ e h1
      · rw [List.mem_singleton.1 h1]; rfl
  · simp [fillMostCommentArticles, Handler.bind_run, listSize_panic _ _ _ _ hp] at h

theorem markTrusted_panic (E : Env) (name : String) (m : GoMap Val) (c : Context)
    (h : ∀ c, assertString (m.get name) c = Res.panic c) :
    markTrusted E name m c = Res.panic c := by
  simp only [markTrusted, Handler.bind_run, h]

theorem Handler.bind_ok {α β : Type} {x : Handler α} {f : α → Handler β} {c c2 : Context} {b : β}
    (h : (x >>= f) c = Res.ok b c2) : ∃ a c1, x c = Res.ok a c1 ∧ f a c1 = Res.ok b c2 := by
  rw [Handler.bind_run] at h
  cases hx : x c with
  | ok a c1 => rw [hx] at h; exact ⟨a, c1, rfl, h⟩
  | panic c1 => rw [hx] at h; cases h

theorem devLoad_run (E : Env) (c : Context) :
    (if "dev" = E.RuntimeMode then emit Event.i18nLoad else (pure () : Handler Unit)) c =
      Res.ok () { c with trace := c.trace ++
        (if "dev" = E.RuntimeMode then [Event.i18nLoad] else []) } := by
  by_cases hdev : "dev" = E.RuntimeMode <;> simp [hdev, emit, Handler.pure_run]

theorem fillCommon_inv (E : Env) (c c1 : Context) (h : fillCommon E c = Res.ok () c1) :
    ∃ blogAdmin vH vF vN vA evs,
      c.Keys.get "blogAdmin" = some (CtxVal.user blogAdmin) ∧
      c.Keys.get "dataModel" = some CtxVal.dataModelPtr ∧
      (settingsLoop E (E.GetAllSettings blogAdmin.BlogID) []).get E.SettingNameBasicHeader =
        some (Val.str vH) ∧
      ((settingsLoop E (E.GetAllSettings blogAdmin.BlogID) []).set
        (E.Title E.SettingNameBasicHeader) (Val.html vH)).get E.SettingNameBasicFooter =
        some (Val.str vF) ∧
      (((settingsLoop E (E.GetAllSettings blogAdmin.BlogID) []).set
        (E.Title E.SettingNameBasicHeader) (Val.html vH)).set
        (E.Title E.SettingNameBasicFooter) (Val.html vF)).get E.SettingNameBasicNoticeBoard =
        some (Val.str vN) ∧
      ((((settingsLoop E (E.GetAllSettings blogAdmin.BlogID) []).set
        (E.Title E.SettingNameBasicHeader) (Val.html vH)).set
        (E.Title E.SettingNameBasicFooter) (Val.html vF)).set
        (E.Title E.SettingNameBasicNoticeBoard) (Val.html vN)).get E.SettingNameArticleSign =
        some (Val.str vA) ∧
      c1.Params = c.Params ∧ c1.RequestURI = c.RequestURI ∧
      c1.Keys = c.Keys.set "dataModel" CtxVal.dataModelPtr ∧
      c1.status = c.status ∧ c1.aborted = c.aborted ∧
      c1.trace = c.trace ++ evs ∧
      (∀ e ∈ evs, Event.isRouting e = false) ∧
      c1.dataModel.get "Setting" = some (DMVal.settingMap
        (trustedMap E (settingsLoop E (E.GetAllSettings blogAdmin.BlogID) []) vH vF vN vA)) ∧
      (∀ k ∈ requiredKeys, (c1.dataModel.get k).isSome = true) := by
  rcases hadmin : c.Keys.get "blogAdmin" with _ | (blogAdmin | _ | _)
  case some.user =>
    rcases hmodel : c.Keys.get "dataModel" with _ | (_ | _ | _)
    case some.dataModelPtr =>
      rcases hloc : E.GetSetting E.SettingCategoryI18n E.SettingNameI18nLocale
        blogAdmin.BlogID with _ | localeSetting
      case some =>
        rcases assertString_cases ((settingsLoop E (E.GetAllSettings blogAdmin.BlogID) []).get
          E.SettingNameBasicHeader) with ⟨vH, hH⟩ | hp
        · rcases assertString_cases (((settingsLoop E (E.GetAllSettings blogAdmin.BlogID) []).set
            (E.Title E.SettingNameBasicHeader) (Val.html vH)).get E.SettingNameBasicFooter) with
            ⟨vF, hF⟩ | hp
          · rcases assertString_cases ((((settingsLoop E (E.GetAllSettings blogAdmin.BlogID)
              []).set (E.Title E.SettingNameBasicHeader) (Val.html vH)).set
              (E.Title E.SettingNameBasicFooter) (Val.html vF)).get
              E.SettingNameBasicNoticeBoard) with ⟨vN, hN⟩ | hp
            · rcases assertString_cases (((((settingsLoop E (E.GetAllSettings blogAdmin.BlogID)
                []).set (E.Title E.SettingNameBasicHeader) (Val.html vH)).set
                (E.Title E.SettingNameBasicFooter) (Val.html vF)).set
                (E.Title E.SettingNameBasicNoticeBoard) (Val.html vN)).get
                E.SettingNameArticleSign) with ⟨vA, hA⟩ | hp
              · simp only [fillCommon, Handler.bind_run, devLoad_run, ctxGet, emit, setData,
                  hadmin, hmodel, hloc, markTrusted_str _ _ _ _ _ hH,
                  markTrusted_str _ _ _ _ _ hF, markTrusted_str _ _ _ _ _ hN,
                  markTrusted_str _ _ _ _ _ hA, statisticsLoop_run] at h
                split at h
                case h_2 => cases h
                rename_i _ _ c2 h2
                obtain ⟨v2, e2, rfl, he2⟩ := fillMostUseCategories_inv _ _ _ _ _ h2
                split at h
                case h_2 => cases h
                rename_i _ _ c3 h3
                obtain ⟨v3, e3, rfl, he3⟩ := fillMostUseTags_inv _ _ _ _ _ h3
                split at h
                case h_2 => cases h
                rename_i _ _ c4 h4
                obtain ⟨v4, e4, rfl, he4⟩ := fillMostViewArticles_inv _ _ _ _ _ h4
                split at h
                case h_2 => cases h
                rename_i _ _ c5 h5
                obtain ⟨v5, e5, rfl, he5⟩ := fillRecentComments_inv _ _ _ _ _ h5
                split at h
                case h_2 => cases h
                rename_i _ _ c6 h6
                obtain ⟨v6, e6, rfl, he6⟩ := fillMostCommentArticles_inv _ _ _ _ _ h6
                simp only [ctxSet, Res.ok.injEq, true_and] at h
                subst h
                refine ⟨blogAdmin, vH, vF, vN, vA, _, rfl, rfl, hH, hF, hN, hA, rfl, rfl, rfl, rfl,
                  rfl, (by simp only [List.append_assoc]; rfl), ?_, ?_, ?_⟩
                · intro e he
                  have hs := statisticLogs_not_routing (E.GetAllStatistics blogAdmin.BlogID)
                  simp only [List.mem_append, List.mem_singleton] at he
                  rcases he with he | rfl | rfl | rfl | rfl | he | rfl | rfl | he | he | he | he | he
                  · split at he
                    · rw [List.mem_singleton.1 he]; rfl
                    · cases he
                  all_goals
                    first
                    | rfl
                    | exact hs _ he
                    | exact he2 _ he
                    | exact he3 _ he
                    | exact he4 _ he
                    | exact he5 _ he
                    | exact he6 _ he
                · simp [GoMap.get_set, trustedMap]
                · simp [requiredKeys, GoMap.get_set]
              · simp [fillCommon, Handler.bind_run, devLoad_run, ctxGet, emit, setData,
                    hadmin, hmodel, hloc, markTrusted_str _ _ _ _ _ hH,
                    markTrusted_str _ _ _ _ _ hF, markTrusted_str _ _ _ _ _ hN,
                    markTrusted_panic _ _ _ _ hp] at h
            · simp [fillCommon, Handler.bind_run, devLoad_run, ctxGet, emit, setData,
                  hadmin, hmodel, hloc, markTrusted_str _ _ _ _ _ hH,
                  markTrusted_str _ _ _ _ _ hF, markTrusted_panic _ _ _ _ hp] at h
          · simp [fillCommon, Handler.bind_run, devLoad_run, ctxGet, emit, setData,
                hadmin, hmodel, hloc, markTrusted_str _ _ _ _ _ hH,
                markTrusted_panic _ _ _ _ hp] at h
        · simp [fillCommon, Handler.bind_run, devLoad_run, ctxGet, emit, setData,
              hadmin, hmodel, hloc, markTrusted_panic _ _ _ _ hp] at h
      all_goals
        simp [fillCommon, Handler.bind_run, devLoad_run, ctxGet, emit, hadmin,
            hmodel, hloc, goPanic] at h
    all_goals
      simp [fillCommon, Handler.bind_run, devLoad_run, ctxGet, emit, hadmin,
          hmodel, goPanic] at h
  all_goals
    simp [fillCommon, Handler.bind_run, devLoad_run, ctxGet, emit, hadmin,
        goPanic] at h

/-! ## The assembler on a ready request -/

theorem GoMap.get_set_ne {α : Type} (m : GoMap α) (k key : String) (v : α) (h : key ≠ k) :
    GoMap.get (GoMap.set m k v) key = GoMap.get m key := by
  simp [GoMap.get_set, h]

/-- A required name reads the same in the projection before and after the
trusted-HTML assignments. -/
theorem trustedMap_get (E : Env) (m0 : GoMap Val) (vH vF vN vA r : String)
    (h : ∀ t ∈ trustedNames E, r ≠ E.Title t) :
    (trustedMap E m0 vH vF vN vA).get r = m0.get r := by
  have h1 := h E.SettingNameBasicHeader (by simp [trustedNames])
  have h2 := h E.SettingNameBasicFooter (by simp [trustedNames])
  have h3 := h E.SettingNameBasicNoticeBoard (by simp [trustedNames])
  have h4 := h E.SettingNameArticleSign (by simp [trustedNames])
  simp [trustedMap, GoMap.get_set, h1, h2, h3, h4]

/-- On a ready request `fillCommon` completes, with the closed forms. -/
theorem fillCommon_ready (E : Env) (c : Context) (blogAdmin : User) (hr : Ready E c blogAdmin) :
    ∃ localeSetting vH vF vN vA u vTag vView vRecent vMost,
      E.GetSetting E.SettingCategoryI18n E.SettingNameI18nLocale blogAdmin.BlogID =
        some localeSetting ∧
      (settingsLoop E (E.GetAllSettings blogAdmin.BlogID) []).get E.SettingNameBasicHeader =
        some (Val.str vH) ∧
      (settingsLoop E (E.GetAllSettings blogAdmin.BlogID) []).get E.SettingNameBasicFooter =
        some (Val.str vF) ∧
      (settingsLoop E (E.GetAllSettings blogAdmin.BlogID) []).get E.SettingNameBasicNoticeBoard =
        some (Val.str vN) ∧
      (settingsLoop E (E.GetAllSettings blogAdmin.BlogID) []).get E.SettingNameArticleSign =
        some (Val.str vA) ∧
      (settingsLoop E (E.GetAllSettings blogAdmin.BlogID) []).get E.SettingNameBasicBlogURL =
        some (Val.str u) ∧
      (settingsLoop E (E.GetAllSettings blogAdmin.BlogID) []).get
        E.SettingNamePreferenceMostUseTagListSize = some (Val.str vTag) ∧
      (settingsLoop E (E.GetAllSettings blogAdmin.BlogID) []).get
        E.SettingNamePreferenceMostViewArticleListSize = some (Val.str vView) ∧
      (settingsLoop E (E.GetAllSettings blogAdmin.BlogID) []).get
        E.SettingNamePreferenceRecentCommentListSize = some (Val.str vRecent) ∧
      (settingsLoop E (E.GetAllSettings blogAdmin.BlogID) []).get
        E.SettingNamePreferenceMostCommentArticleListSize = some (Val.str vMost) ∧
      fillCommon E c =
        Res.ok ()
          { c with
            Keys := c.Keys.set "dataModel" CtxVal.dataModelPtr
            dataModel := assembledModel E blogAdmin.BlogID localeSetting.Value
              (trustedMap E (settingsLoop E (E.GetAllSettings blogAdmin.BlogID) []) vH vF vN vA)
              u vTag vView vRecent vMost c.dataModel
            trace := c.trace ++
              assemblyTrace E blogAdmin.BlogID localeSetting.Value vTag vView vRecent vMost } := by
  obtain ⟨hadmin, hmodel, hlocale, hsettings, hplain⟩ := hr
  obtain ⟨localeSetting, hloc⟩ := Option.isSome_iff_exists.1 hlocale
  have hmem : ∀ r ∈ requiredNames E,
      ∃ v, (settingsLoop E (E.GetAllSettings blogAdmin.BlogID) []).get r = some (Val.str v) :=
    fun r hr => settingsLoop_get_str E _ r (hsettings r hr)
  obtain ⟨vH, hH⟩ := hmem E.SettingNameBasicHeader (by simp [requiredNames, trustedNames])
  obtain ⟨vF, hF⟩ := hmem E.SettingNameBasicFooter (by simp [requiredNames, trustedNames])
  obtain ⟨vN, hN⟩ := hmem E.SettingNameBasicNoticeBoard (by simp [requiredNames, trustedNames])
  obtain ⟨vA, hA⟩ := hmem E.SettingNameArticleSign (by simp [requiredNames, trustedNames])
  obtain ⟨u, hu⟩ := hmem E.SettingNameBasicBlogURL (by simp [requiredNames, trustedNames])
  obtain ⟨vTag, hTag⟩ := hmem E.SettingNamePreferenceMostUseTagListSize
    (by simp [requiredNames, trustedNames])
  obtain ⟨vView, hView⟩ := hmem E.SettingNamePreferenceMostViewArticleListSize
    (by simp [requiredNames, trustedNames])
  obtain ⟨vRecent, hRecent⟩ := hmem E.SettingNamePreferenceRecentCommentListSize
    (by simp [requiredNames, trustedNames])
  obtain ⟨vMost, hMost⟩ := hmem E.SettingNamePreferenceMostCommentArticleListSize
    (by simp [requiredNames, trustedNames])
  have pF := hplain E.SettingNameBasicFooter (by simp [requiredNames, trustedNames])
  have pN := hplain E.SettingNameBasicNoticeBoard (by simp [requiredNames, trustedNames])
  have pA := hplain E.SettingNameArticleSign (by simp [requiredNames, trustedNames])
  have pu := hplain E.SettingNameBasicBlogURL (by simp [requiredNames, trustedNames])
  have pTag := hplain E.SettingNamePreferenceMostUseTagListSize
    (by simp [requiredNames, trustedNames])
  have pView := hplain E.SettingNamePreferenceMostViewArticleListSize
    (by simp [requiredNames, trustedNames])
  have pRecent := hplain E.SettingNamePreferenceRecentCommentListSize
    (by simp [requiredNames, trustedNames])
  have pMost := hplain E.SettingNamePreferenceMostCommentArticleListSize
    (by simp [requiredNames, trustedNames])
  refine ⟨localeSetting, vH, vF, vN, vA, u, vTag, vView, vRecent, vMost, hloc, hH, hF, hN, hA, hu,
    hTag, hView, hRecent, hMost, ?_⟩
  apply fillCommon_run E c blogAdmin localeSetting vH vF vN vA u vTag vView vRecent vMost hadmin
    hmodel hloc hH
  · rw [GoMap.get_set_ne _ _ _ _ (pF _ (by simp [trustedNames]))]; exact hF
  · rw [GoMap.get_set_ne _ _ _ _ (pN _ (by simp [trustedNames])),
      GoMap.get_set_ne _ _ _ _ (pN _ (by simp [trustedNames]))]; exact hN
  · rw [GoMap.get_set_ne _ _ _ _ (pA _ (by simp [trustedNames])),
      GoMap.get_set_ne _ _ _ _ (pA _ (by simp [trustedNames])),
      GoMap.get_set_ne _ _ _ _ (pA _ (by simp [trustedNames]))]; exact hA
  · rw [trustedMap_get _ _ _ _ _ _ _ pu]; exact hu
  · rw [trustedMap_get _ _ _ _ _ _ _ pTag]; exact hTag
  · rw [trustedMap_get _ _ _ _ _ _ _ pView]; exact hView
  · rw [trustedMap_get _ _ _ _ _ _ _ pRecent]; exact hRecent
  · rw [trustedMap_get _ _ _ _ _ _ _ pMost]; exact hMost

/-! ## The resolver -/

/-- The run of `resolveBlog` for a found tenant whose assembly completes in `c1`
and whose request URI splits into at least two pieces around the tenant name. -/
theorem resolveBlog_run (E : Env) (c c1 : Context) (n raw first : String) (more : List String)
    (blogAdmin : User)
    (hparam : (GoMap.get c.Params "username").getD "" = n) (hn : n ≠ "")
    (hT : E.GetUserByName n = some blogAdmin)
    (hfill : fillCommon E
      { c with
        Keys := c.Keys.set "blogAdmin" (CtxVal.user blogAdmin)
        trace := c.trace ++ [Event.GetUserByName n] } = Res.ok () c1)
    (hsplit : Split c.RequestURI n = first :: raw :: more) :
    resolveBlog E c =
      match E.GetArticleByPath (cutQuery (TrimSpace raw)) with
      | some article =>
        Res.ok ()
          { c1 with
            Keys := c1.Keys.set "article" (CtxVal.article article)
            aborted := true
            trace := c1.trace ++
              [Event.GetArticleByPath (cutQuery (TrimSpace raw)), Event.showArticleAction] }
      | none =>
        Res.ok ()
          { c1 with
            trace := c1.trace ++ [Event.GetArticleByPath (cutQuery (TrimSpace raw)), Event.next] } := by
  obtain ⟨_, _, _, _, _, _, _, _, _, _, _, _, _, hURI, _⟩ := fillCommon_inv E _ c1 hfill
  have hURI1 : c1.RequestURI = c.RequestURI := hURI
  have hn1 : ¬ "" = n := fun h => hn h.symm
  simp only [resolveBlog, Handler.bind_run, Param, hparam, hn1, if_false, emit, hT, ctxSet, hfill,
    getRequestURI, hURI1, hsplit, index1, Handler.pure_run]
  cases E.GetArticleByPath (cutQuery (TrimSpace raw)) with
  | none => simp [Handler.bind_run, emit]
  | some article => simp [Handler.bind_run, emit, ctxSet, Abort]

/-- C1. When the tenant identifier of the request is empty, or is not empty and
the tenant lookup finds no tenant for it, `resolveBlog` aborts the request with
status 404 and does nothing else: the context keys and the DataModel are those
of the incoming request (no `blogAdmin`, `dataModel` or `article` is set and
`fillCommon` has not run), and the only event, if any, is the tenant lookup
itself: no article lookup, no rendering, no continuation to the next handler. -/
theorem resolveBlog_not_found (E : Env) (c : Context) (n : String)
    (hparam : (GoMap.get c.Params "username").getD "" = n)
    (h : n = "" ∨ E.GetUserByName n = none) :
    resolveBlog E c =
      Res.ok ()
        { c with
          status := some 404
          aborted := true
          trace := c.trace ++ (if n = "" then [] else [Event.GetUserByName n]) } := by
  by_cases hn : n = ""
  · subst hn
    simp [resolveBlog, Handler.bind_run, Param, hparam, AbortWithStatus, StatusNotFound]
  · have hnone : E.GetUserByName n = none := h.resolve_left hn
    have hn1 : ¬ "" = n := fun h => hn h.symm
    simp [resolveBlog, Handler.bind_run, Param, hparam, hn, hn1, emit, hnone, AbortWithStatus,
      StatusNotFound]

/-- C1 at concrete inputs: the tenant name `nobody` is unknown to the sample
environment, and the request ends with status 404, aborted, with the keys and
the DataModel it came with. -/
theorem resolveBlog_not_found_witness :
    sampleEnv.GetUserByName "nobody" = none ∧
    resolveBlog sampleEnv (freshContext "/nobody/post" "nobody") =
      Res.ok ()
        { Params := [("username", "nobody")]
          RequestURI := "/nobody/post"
          Keys := [("dataModel", CtxVal.dataModelPtr)]
          dataModel := []
          status := some 404
          aborted := true
          trace := [Event.GetUserByName "nobody"] } := by
  refine ⟨by decide, ?_⟩
  rw [resolveBlog_not_found sampleEnv (freshContext "/nobody/post" "nobody") "nobody" (by decide)
    (Or.inr (by decide))]
  decide

/-! ## The assembled DataModel -/

/-- C9. On a ready request (tenant and DataModel pointer in the context, the
locale setting and every setting read as a string present for the tenant),
whatever the DataModel held before, `fillCommon` completes and the DataModel
then binds all nine required keys; and a widget whose collaborator returns an
empty collection is bound to an allocated empty sequence, not left out and
not nil. -/
theorem fillCommon_nine_keys (E : Env) (c : Context) (blogAdmin : User)
    (hr : Ready E c blogAdmin) :
    ∃ c1, fillCommon E c = Res.ok () c1 ∧
      (∀ k ∈ ["Setting", "I18n", "Statistic", "Navigations", "MostUseCategories", "MostUseTags",
          "MostViewArticles", "RecentComments", "MostCommentArticles"],
        ∃ v, c1.dataModel.get k = some v) ∧
      (E.GetCategories MaxInt8 blogAdmin.BlogID = [] →
        c1.dataModel.get "MostUseCategories" = some (DMVal.categories [])) ∧
      ((∀ size, E.GetTags size blogAdmin.BlogID = []) →
        c1.dataModel.get "MostUseTags" = some (DMVal.tags [])) ∧
      ((∀ size, E.GetMostViewArticles size blogAdmin.BlogID = []) →
        c1.dataModel.get "MostViewArticles" = some (DMVal.articles [])) ∧
      ((∀ size, E.GetRecentComments size blogAdmin.BlogID = []) →
        c1.dataModel.get "RecentComments" = some (DMVal.comments [])) ∧
      ((∀ size, E.GetMostCommentArticles size blogAdmin.BlogID = []) →
        c1.dataModel.get "MostCommentArticles" = some (DMVal.articles [])) := by
  obtain ⟨localeSetting, vH, vF, vN, vA, u, vTag, vView, vRecent, vMost, -, -, -, -, -, -, -, -,
    -, -, hrun⟩ := fillCommon_ready E c blogAdmin hr
  refine ⟨_, hrun, ?_, ?_, ?_, ?_, ?_, ?_⟩
  · intro k hk
    simp only [List.mem_cons, List.mem_singleton, List.not_mem_nil, or_false] at hk
    rcases hk with rfl | rfl | rfl | rfl | rfl | rfl | rfl | rfl | rfl <;>
      simp [assembledModel, GoMap.get_set]
  · intro h
    simp [assembledModel, GoMap.get_set, h]
  · intro h
    simp [assembledModel, GoMap.get_set, h]
  · intro h
    simp [assembledModel, GoMap.get_set, h]
  · intro h
    simp [assembledModel, GoMap.get_set, h]
  · intro h
    simp [assembledModel, GoMap.get_set, h]

/-- C9 at a concrete input: the sample request for `alice` is ready, its
DataModel held a stale `MostUseTags`, and the tag collaborator returns nothing;
after `fillCommon` the key `MostUseTags` holds the empty sequence. -/
theorem fillCommon_nine_keys_witness :
    Ready sampleEnv aliceContext ⟨"alice", 1⟩ ∧
    aliceContext.dataModel.get "MostUseTags" = some DMVal.conf ∧
    (fillCommon sampleEnv aliceContext).ctx.dataModel.get "MostUseTags" =
      some (DMVal.tags []) := by
  have hr : Ready sampleEnv aliceContext ⟨"alice", 1⟩ :=
    ⟨by decide, by decide, by decide, by decide, by decide⟩
  obtain ⟨c1, h1, -, -, h2, -⟩ := fillCommon_nine_keys sampleEnv aliceContext ⟨"alice", 1⟩ hr
  refine ⟨hr, by decide, ?_⟩
  rw [h1]
  exact h2 (fun _ => rfl)

/-! ## The sample environment, evaluated -/

/-- In the sample environment `fillCommon` completes for any tenant whose
context holds the tenant and the DataModel pointer. -/
theorem sampleEnv_fillCommon (c : Context) (blogAdmin : User)
    (hadmin : c.Keys.get "blogAdmin" = some (CtxVal.user blogAdmin))
    (hmodel : c.Keys.get "dataModel" = some CtxVal.dataModelPtr) :
    fillCommon sampleEnv c =
      Res.ok ()
        { c with
          Keys := c.Keys.set "dataModel" CtxVal.dataModelPtr
          dataModel := assembledModel sampleEnv blogAdmin.BlogID "en_US"
            (trustedMap sampleEnv (settingsLoop sampleEnv sampleSettings [])
              "<b>h</b>" "<i>f</i>" "hello" "-- a")
            "https://alice.example" "3" "x" "4" "6" c.dataModel
          trace := c.trace ++ assemblyTrace sampleEnv blogAdmin.BlogID "en_US" "3" "x" "4" "6" } :=
  fillCommon_run sampleEnv c blogAdmin ⟨"i18nLocale", "en_US"⟩ "<b>h</b>" "<i>f</i>" "hello" "-- a"
    "https://alice.example" "3" "x" "4" "6" hadmin hmodel rfl
    (show (settingsLoop sampleEnv sampleSettings []).get "basicHeader" = _ by decide)
    (show ((settingsLoop sampleEnv sampleSettings []).set (asciiTitle "basicHeader")
      (Val.html "<b>h</b>")).get "basicFooter" = _ by decide)
    (show (((settingsLoop sampleEnv sampleSettings []).set (asciiTitle "basicHeader")
      (Val.html "<b>h</b>")).set (asciiTitle "basicFooter") (Val.html "<i>f</i>")).get
      "basicNoticeBoard" = _ by decide)
    (show ((((settingsLoop sampleEnv sampleSettings []).set (asciiTitle "basicHeader")
      (Val.html "<b>h</b>")).set (asciiTitle "basicFooter") (Val.html "<i>f</i>")).set
      (asciiTitle "basicNoticeBoard") (Val.html "hello")).get "articleSign" = _ by decide)
    (show (trustedMap sampleEnv (settingsLoop sampleEnv sampleSettings [])
      "<b>h</b>" "<i>f</i>" "hello" "-- a").get "basicBlogURL" = _ by decide)
    (show (trustedMap sampleEnv (settingsLoop sampleEnv sampleSettings [])
      "<b>h</b>" "<i>f</i>" "hello" "-- a").get "preferenceMostUseTagListSize" = _ by decide)
    (show (trustedMap sampleEnv (settingsLoop sampleEnv sampleSettings [])
      "<b>h</b>" "<i>f</i>" "hello" "-- a").get "preferenceMostViewArticleListSize" = _ by decide)
    (show (trustedMap sampleEnv (settingsLoop sampleEnv sampleSettings [])
      "<b>h</b>" "<i>f</i>" "hello" "-- a").get "preferenceRecentCommentListSize" = _ by decide)
    (show (trustedMap sampleEnv (settingsLoop sampleEnv sampleSettings [])
      "<b>h</b>" "<i>f</i>" "hello" "-- a").get "preferenceMostCommentArticleListSize" = _
      by decide)

/-! ## Statistics -/

theorem statisticLogs_eq_filter (statistics : List Statistic) :
    statisticLogs statistics =
      (statistics.filter (fun t => (Atoi t.Value).err)).map
        (fun t => Event.log (statisticLogLine t.Name t.Value)) := by
  induction statistics with
  | nil => rfl
  | cons s rest ih =>
    by_cases he : (Atoi s.Value).err = true <;> simp [statisticLogs, he, ih]

/-- C5, as the code has it. On a ready request `fillCommon` completes whatever
the statistic values are, and the `Statistic` map `m` it stores is as follows.
No statistic is omitted: the name and the capitalized name of every statistic,
whether its value parses or not, are keys of `m`, each bound to the integer
`strconv.Atoi` returns for the value of a statistic that writes that key. A
key that the statistic `s` writes (its name or its capitalized name) and that
no later statistic of the list writes is bound to the integer `strconv.Atoi`
returns for the value of `s`: the parsed integer when the value parses, and
the integer returned along with the error when it does not. Between the
statistics fetch and the user-count fetch the function logs exactly one line
per statistic that does not parse, in order; no log line precedes them, and
every later log line is about a size setting. -/
theorem statistics_kept_with_returned_count (E : Env) (c : Context) (blogAdmin : User)
    (hr : Ready E c blogAdmin) :
    ∃ c1 m before after,
      fillCommon E c = Res.ok () c1 ∧
      c1.dataModel.get "Statistic" = some (DMVal.statisticMap m) ∧
      (∀ s ∈ E.GetAllStatistics blogAdmin.BlogID, ∀ k, k = s.Name ∨ k = E.Title s.Name →
        ∃ t ∈ E.GetAllStatistics blogAdmin.BlogID, (k = t.Name ∨ k = E.Title t.Name) ∧
          m.get k = some (Atoi t.Value).val) ∧
      (∀ pre s post k, E.GetAllStatistics blogAdmin.BlogID = pre ++ s :: post →
        k = s.Name ∨ k = E.Title s.Name →
        (∀ t ∈ post, k ≠ t.Name ∧ k ≠ E.Title t.Name) →
        m.get k = some (Atoi s.Value).val) ∧
      c1.trace = c.trace ++ before ++ [Event.GetAllStatistics blogAdmin.BlogID] ++
        ((E.GetAllStatistics blogAdmin.BlogID).filter (fun t => (Atoi t.Value).err)).map
          (fun t => Event.log (statisticLogLine t.Name t.Value)) ++
        [Event.GetBlogUsers 1 blogAdmin.BlogID] ++ after ∧
      (∀ msg, Event.log msg ∉ before) ∧
      (∀ msg, Event.log msg ∈ after → ∃ name value, msg = settingLogLine name value) := by
  obtain ⟨localeSetting, vH, vF, vN, vA, u, vTag, vView, vRecent, vMost, -, -, -, -, -, -, -, -,
    -, -, hrun⟩ := fillCommon_ready E c blogAdmin hr
  refine ⟨_, dualLoop E.Title
      ((E.GetAllStatistics blogAdmin.BlogID).map (fun s => (s.Name, (Atoi s.Value).val))) [],
    (if "dev" = E.RuntimeMode then [Event.i18nLoad] else []) ++
      [Event.GetSetting E.SettingCategoryI18n E.SettingNameI18nLocale blogAdmin.BlogID,
       Event.GetMessages localeSetting.Value, Event.GetAllSettings blogAdmin.BlogID],
    [Event.GetNavigations blogAdmin.BlogID, Event.GetCategories MaxInt8 blogAdmin.BlogID] ++
      sizeLog E.SettingNamePreferenceMostUseTagListSize vTag ++
      [Event.GetTags (sizeUsed vTag E.SettingPreferenceMostUseTagListSizeDefault)
        blogAdmin.BlogID] ++
      sizeLog E.SettingNamePreferenceMostViewArticleListSize vView ++
      [Event.GetMostViewArticles
        (sizeUsed vView E.SettingPreferenceMostViewArticleListSizeDefault) blogAdmin.BlogID] ++
      sizeLog E.SettingNamePreferenceRecentCommentListSize vRecent ++
      [Event.GetRecentComments
        (sizeUsed vRecent E.SettingPreferenceRecentCommentListSizeDefault) blogAdmin.BlogID] ++
      sizeLog E.SettingNamePreferenceMostCommentArticleListSize vMost ++
      [Event.GetMostCommentArticles
        (sizeUsed vMost E.SettingPreferenceMostCommentArticleListSizeDefault) blogAdmin.BlogID],
    hrun, ?_, ?_, ?_, ?_, ?_, ?_⟩
  · simp [assembledModel, GoMap.get_set]
  · intro s hs k hk
    obtain ⟨e, he, hw, hget⟩ := dualLoop_get_written E.Title
      ((E.GetAllStatistics blogAdmin.BlogID).map (fun s => (s.Name, (Atoi s.Value).val))) [] k
      ⟨(s.Name, (Atoi s.Value).val), List.mem_map.2 ⟨s, hs, rfl⟩, hk⟩
    obtain ⟨t, ht, rfl⟩ := List.mem_map.1 he
    exact ⟨t, ht, hw, hget⟩
  · intro pre s post k hs hk hlast
    rw [hs, List.map_append, List.map_cons]
    exact dualLoop_get_last E.Title _ _ s.Name _ [] k hk (by
      intro e he
      obtain ⟨t, ht, rfl⟩ := List.mem_map.1 he
      exact hlast t ht)
  · simp only [assemblyTrace, statisticLogs_eq_filter, List.append_assoc, List.cons_append,
      List.nil_append]
  · intro msg hmem
    simp only [List.mem_append, List.mem_cons, List.mem_singleton, List.not_mem_nil,
      or_false] at hmem
    rcases hmem with hmem | hmem
    · split at hmem
      · simp at hmem
      · simp at hmem
    · simp at hmem
  · intro msg hmem
    have hsz : ∀ name value, Event.log msg ∈ sizeLog name value →
        ∃ name value, msg = settingLogLine name value := by
      intro name value hm
      unfold sizeLog at hm
      split at hm
      · exact ⟨name, value, by simpa using hm⟩
      · cases hm
    simp only [List.mem_append, List.mem_cons, List.mem_singleton, List.not_mem_nil,
      or_false] at hmem
    rcases hmem with (((((((hmem | hmem) | hmem) | hmem) | hmem) | hmem) | hmem) | hmem) | hmem
    all_goals
      first
      | exact hsz _ _ hmem
      | (exfalso; simp at hmem)

/-- C5 at a concrete input: the sample request for `alice` is ready; the
statistic `comments = "abc"` is kept under `comments` and `Comments` with the
`0` that `strconv.Atoi` returns with its syntax error, and
`likes = "99999999999999999999x"` under both its keys with the `int64` bound
that `strconv.Atoi` returns with its range error. -/
theorem statistics_kept_with_returned_count_witness :
    Ready sampleEnv aliceContext ⟨"alice", 1⟩ ∧
    sampleEnv.GetAllStatistics 1 =
      [⟨"views", "7"⟩, ⟨"comments", "abc"⟩, ⟨"likes", "99999999999999999999x"⟩] ∧
    Atoi "abc" = ⟨0, true⟩ ∧
    Atoi "99999999999999999999x" = ⟨9223372036854775807, true⟩ ∧
    ∃ c1 m, fillCommon sampleEnv aliceContext = Res.ok () c1 ∧
      c1.dataModel.get "Statistic" = some (DMVal.statisticMap m) ∧
      m.get "comments" = some 0 ∧ m.get "Comments" = some 0 ∧
      m.get "likes" = some 9223372036854775807 ∧
      m.get "Likes" = some 9223372036854775807 ∧
      m.get "views" = some 7 ∧ m.get "Views" = some 7 := by
  have hr : Ready sampleEnv aliceContext ⟨"alice", 1⟩ :=
    ⟨by decide, by decide, by decide, by decide, by decide⟩
  obtain ⟨c1, m, -, -, h1, h2, -, h3, -⟩ :=
    statistics_kept_with_returned_count sampleEnv aliceContext ⟨"alice", 1⟩ hr
  have a1 : Atoi "abc" = ⟨0, true⟩ := by decide
  have a2 : Atoi "99999999999999999999x" = ⟨9223372036854775807, true⟩ := by decide
  have a3 : Atoi "7" = ⟨7, false⟩ := by decide
  have c1a := h3 [⟨"views", "7"⟩] ⟨"comments", "abc"⟩ [⟨"likes", "99999999999999999999x"⟩]
    "comments" rfl (Or.inl rfl) (by decide)
  have c1b := h3 [⟨"views", "7"⟩] ⟨"comments", "abc"⟩ [⟨"likes", "99999999999999999999x"⟩]
    "Comments" rfl (Or.inr (by decide)) (by decide)
  have c2a := h3 [⟨"views", "7"⟩, ⟨"comments", "abc"⟩] ⟨"likes", "99999999999999999999x"⟩ []
    "likes" rfl (Or.inl rfl) (by decide)
  have c2b := h3 [⟨"views", "7"⟩, ⟨"comments", "abc"⟩] ⟨"likes", "99999999999999999999x"⟩ []
    "Likes" rfl (Or.inr (by decide)) (by decide)
  have c3a := h3 [] ⟨"views", "7"⟩ [⟨"comments", "abc"⟩, ⟨"likes", "99999999999999999999x"⟩]
    "views" rfl (Or.inl rfl) (by decide)
  have c3b := h3 [] ⟨"views", "7"⟩ [⟨"comments", "abc"⟩, ⟨"likes", "99999999999999999999x"⟩]
    "Views" rfl (Or.inr (by decide)) (by decide)
  simp only [a1, a2, a3] at c1a c1b c2a c2b c3a c3b
  exact ⟨hr, rfl, a1, a2, c1, m, h1, h2, c1a, c1b, c2a, c2b, c3a, c3b⟩

/-- C5 as stated fails. Among the sample statistics, whose keys are all
different, is `comments = "abc"`. The value `abc` does not parse, yet after
`fillCommon` both `comments` and `Comments` are keys of the `Statistic` map,
bound to `0`: the statistic is not omitted. -/
theorem unparsable_statistic_not_omitted :
    (⟨"comments", "abc"⟩ : Statistic) ∈ sampleEnv.GetAllStatistics 1 ∧
    (Atoi "abc").err = true ∧ asciiTitle "comments" = "Comments" ∧
    ∃ c1 m, fillCommon sampleEnv aliceContext = Res.ok () c1 ∧
      c1.dataModel.get "Statistic" = some (DMVal.statisticMap m) ∧
      m.get "comments" = some 0 ∧ m.get "Comments" = some 0 := by
  refine ⟨by decide, by decide, by decide, _,
    dualLoop asciiTitle [("views", 7), ("comments", 0), ("likes", 9223372036854775807)] [],
    sampleEnv_fillCommon aliceContext ⟨"alice", 1⟩ (by decide) (by decide), ?_, by decide,
    by decide⟩
  have hm : dualLoop sampleEnv.Title
      ((sampleEnv.GetAllStatistics 1).map (fun s => (s.Name, (Atoi s.Value).val))) [] =
      dualLoop asciiTitle [("views", 7), ("comments", 0), ("likes", 9223372036854775807)] [] := by
    decide
  simp only [assembledModel, GoMap.get_set]
  simp [hm]

/-! ## Settings -/

/-- A key that reads as a string after a `template.HTML` assignment is not the
assigned key, and read the same string before. -/
theorem get_str_of_set_html {m : GoMap Val} {k key w v : String}
    (h : (m.set k (Val.html w)).get key = some (Val.str v)) :
    key ≠ k ∧ m.get key = some (Val.str v) := by
  rw [GoMap.get_set] at h
  by_cases hk : key = k
  · rw [if_pos hk] at h
    cases h
  · rw [if_neg hk] at h
    exact ⟨hk, h⟩

/-- C8, as the code has it. When `fillCommon` completes, the `Setting` entry of
the DataModel is a projection `settingMap` with these bindings. The name and
the capitalized name of every setting of the list are keys of it. A key `k`
that the setting `s` writes (its name or its capitalized name) and that no
later setting of the list writes holds the string `s.Value`, unless `k` is the
capitalized name of a trusted-HTML setting. The capitalized name of a
trusted-HTML setting `t` (header, footer, notice board, article signature, in
this order) holds `template.HTML` of the same text `s.Value`, where `s` is the
last setting of the list that writes the plain key `t`, unless a later
trusted-HTML setting has the same capitalized name. -/
theorem settings_dual_cased (E : Env) (c c1 : Context) (h : fillCommon E c = Res.ok () c1) :
    ∃ blogAdmin settingMap,
      c.Keys.get "blogAdmin" = some (CtxVal.user blogAdmin) ∧
      c1.dataModel.get "Setting" = some (DMVal.settingMap settingMap) ∧
      (∀ s ∈ E.GetAllSettings blogAdmin.BlogID, ∀ k, k = s.Name ∨ k = E.Title s.Name →
        ∃ v, settingMap.get k = some v) ∧
      (∀ pre s post k, E.GetAllSettings blogAdmin.BlogID = pre ++ s :: post →
        k = s.Name ∨ k = E.Title s.Name →
        (∀ x ∈ post, k ≠ x.Name ∧ k ≠ E.Title x.Name) →
        (∀ t ∈ trustedNames E, k ≠ E.Title t) →
        settingMap.get k = some (Val.str s.Value)) ∧
      (∀ pre s post tpre t tpost, E.GetAllSettings blogAdmin.BlogID = pre ++ s :: post →
        trustedNames E = tpre ++ t :: tpost →
        t = s.Name ∨ t = E.Title s.Name →
        (∀ x ∈ post, t ≠ x.Name ∧ t ≠ E.Title x.Name) →
        (∀ t2 ∈ tpost, E.Title t ≠ E.Title t2) →
        settingMap.get (E.Title t) = some (Val.html s.Value)) := by
  obtain ⟨blogAdmin, vH, vF, vN, vA, evs, hadmin, -, hH, hF, hN, hA, -, -, -, -, -, -, -, hset,
    -⟩ := fillCommon_inv E c c1 h
  -- the strings read by the four assignments are those the settings loop left
  obtain ⟨nFH, hF0⟩ := get_str_of_set_html hF
  obtain ⟨nNF, hN1⟩ := get_str_of_set_html hN
  obtain ⟨nNH, hN0⟩ := get_str_of_set_html hN1
  obtain ⟨nAN, hA2⟩ := get_str_of_set_html hA
  obtain ⟨nAF, hA1⟩ := get_str_of_set_html hA2
  obtain ⟨nAH, hA0⟩ := get_str_of_set_html hA1
  have hlast : ∀ pre s post k, E.GetAllSettings blogAdmin.BlogID = pre ++ s :: post →
      k = s.Name ∨ k = E.Title s.Name →
      (∀ x ∈ post, k ≠ x.Name ∧ k ≠ E.Title x.Name) →
      (settingsLoop E (E.GetAllSettings blogAdmin.BlogID) []).get k = some (Val.str s.Value) := by
    intro pre s post k hs hk hpost
    rw [settingsLoop_eq, hs, List.map_append, List.map_cons]
    exact dualLoop_get_last E.Title _ _ s.Name _ [] k hk (by
      intro e he
      obtain ⟨x, hx, rfl⟩ := List.mem_map.1 he
      exact hpost x hx)
  refine ⟨blogAdmin, _, hadmin, hset, ?_, ?_, ?_⟩
  · intro s hs k hk
    obtain ⟨e, -, -, hget⟩ := dualLoop_get_written E.Title
      ((E.GetAllSettings blogAdmin.BlogID).map (fun s => (s.Name, Val.str s.Value))) [] k
      ⟨(s.Name, Val.str s.Value), List.mem_map.2 ⟨s, hs, rfl⟩, hk⟩
    rw [← settingsLoop_eq] at hget
    simp only [trustedMap, GoMap.get_set]
    split_ifs
    · exact ⟨_, rfl⟩
    · exact ⟨_, rfl⟩
    · exact ⟨_, rfl⟩
    · exact ⟨_, rfl⟩
    · exact ⟨_, hget⟩
  · intro pre s post k hs hk hpost hplain
    rw [trustedMap_get _ _ _ _ _ _ _ hplain]
    exact hlast pre s post k hs hk hpost
  · intro pre s post tpre t tpost hs ht hk hpost hlater
    have hval := hlast pre s post t hs hk hpost
    rcases tpre with _ | ⟨a1, _ | ⟨a2, _ | ⟨a3, _ | ⟨a4, rest⟩⟩⟩⟩
    · simp only [trustedNames, List.nil_append, List.cons.injEq] at ht
      obtain ⟨rfl, rfl⟩ := ht
      rw [hH] at hval
      injection hval with hval
      injection hval with hval
      subst hval
      have g1 := hlater E.SettingNameBasicFooter (by simp)
      have g2 := hlater E.SettingNameBasicNoticeBoard (by simp)
      have g3 := hlater E.SettingNameArticleSign (by simp)
      simp [trustedMap, GoMap.get_set, g1, g2, g3]
    · simp only [trustedNames, List.cons_append, List.nil_append, List.cons.injEq] at ht
      obtain ⟨-, rfl, rfl⟩ := ht
      rw [hF0] at hval
      injection hval with hval
      injection hval with hval
      subst hval
      have g2 := hlater E.SettingNameBasicNoticeBoard (by simp)
      have g3 := hlater E.SettingNameArticleSign (by simp)
      simp [trustedMap, GoMap.get_set, g2, g3]
    · simp only [trustedNames, List.cons_append, List.nil_append, List.cons.injEq] at ht
      obtain ⟨-, -, rfl, rfl⟩ := ht
      rw [hN0] at hval
      injection hval with hval
      injection hval with hval
      subst hval
      have g3 := hlater E.SettingNameArticleSign (by simp)
      simp [trustedMap, GoMap.get_set, g3]
    · simp only [trustedNames, List.cons_append, List.nil_append, List.cons.injEq] at ht
      obtain ⟨-, -, -, rfl, -⟩ := ht
      rw [hA0] at hval
      injection hval with hval
      injection hval with hval
      subst hval
      simp [trustedMap, GoMap.get_set]
    · simp [trustedNames] at ht

/-- C8 at a concrete input: the sample setting `basicBlogURL` is the last to
write its two keys and neither is a trusted-HTML key, so the projection binds
both `basicBlogURL` and `BasicBlogURL` to its value; the sample setting
`basicHeader = "<b>h</b>"` is the last to write `basicHeader`, so
`BasicHeader` holds `template.HTML` of the same text. -/
theorem settings_dual_cased_witness :
    (∃ c1, fillCommon sampleEnv aliceContext = Res.ok () c1) ∧
    asciiTitle "basicBlogURL" = "BasicBlogURL" ∧ asciiTitle "basicHeader" = "BasicHeader" ∧
    ∃ settingMap,
      (fillCommon sampleEnv aliceContext).ctx.dataModel.get "Setting" =
        some (DMVal.settingMap settingMap) ∧
      settingMap.get "basicBlogURL" = some (Val.str "https://alice.example") ∧
      settingMap.get "BasicBlogURL" = some (Val.str "https://alice.example") ∧
      settingMap.get "basicHeader" = some (Val.str "<b>h</b>") ∧
      settingMap.get "BasicHeader" = some (Val.html "<b>h</b>") := by
  have h := sampleEnv_fillCommon aliceContext ⟨"alice", 1⟩ (by decide) (by decide)
  obtain ⟨blogAdmin, settingMap, hadmin, hset, -, hplain, htrusted⟩ :=
    settings_dual_cased sampleEnv aliceContext _ h
  have hkey : aliceContext.Keys.get "blogAdmin" = some (CtxVal.user ⟨"alice", 1⟩) := by decide
  rw [hkey] at hadmin
  injection hadmin with hadmin
  injection hadmin with hadmin
  subst hadmin
  have hurl := hplain
    [⟨"i18nLocale", "en_US"⟩, ⟨"basicHeader", "<b>h</b>"⟩, ⟨"basicFooter", "<i>f</i>"⟩,
      ⟨"basicNoticeBoard", "hello"⟩, ⟨"articleSign", "-- a"⟩]
    ⟨"basicBlogURL", "https://alice.example"⟩
    [⟨"preferenceMostUseTagListSize", "3"⟩, ⟨"preferenceMostViewArticleListSize", "x"⟩,
      ⟨"preferenceRecentCommentListSize", "4"⟩, ⟨"preferenceMostCommentArticleListSize", "6"⟩,
      ⟨"BasicLogoURL", "old.png"⟩, ⟨"basicLogoURL", "logo.png"⟩]
  have hhead := hplain [⟨"i18nLocale", "en_US"⟩] ⟨"basicHeader", "<b>h</b>"⟩
    [⟨"basicFooter", "<i>f</i>"⟩, ⟨"basicNoticeBoard", "hello"⟩, ⟨"articleSign", "-- a"⟩,
      ⟨"basicBlogURL", "https://alice.example"⟩,
      ⟨"preferenceMostUseTagListSize", "3"⟩, ⟨"preferenceMostViewArticleListSize", "x"⟩,
      ⟨"preferenceRecentCommentListSize", "4"⟩, ⟨"preferenceMostCommentArticleListSize", "6"⟩,
      ⟨"BasicLogoURL", "old.png"⟩, ⟨"basicLogoURL", "logo.png"⟩]
    "basicHeader" rfl (Or.inl rfl) (by decide) (by decide)
  have hHEAD := htrusted [⟨"i18nLocale", "en_US"⟩] ⟨"basicHeader", "<b>h</b>"⟩
    [⟨"basicFooter", "<i>f</i>"⟩, ⟨"basicNoticeBoard", "hello"⟩, ⟨"articleSign", "-- a"⟩,
      ⟨"basicBlogURL", "https://alice.example"⟩,
      ⟨"preferenceMostUseTagListSize", "3"⟩, ⟨"preferenceMostViewArticleListSize", "x"⟩,
      ⟨"preferenceRecentCommentListSize", "4"⟩, ⟨"preferenceMostCommentArticleListSize", "6"⟩,
      ⟨"BasicLogoURL", "old.png"⟩, ⟨"basicLogoURL", "logo.png"⟩]
    [] "basicHeader" ["basicFooter", "basicNoticeBoard", "articleSign"]
    rfl rfl (Or.inl rfl) (by decide) (by decide)
  have t2 : sampleEnv.Title "basicHeader" = "BasicHeader" := by decide
  rw [t2] at hHEAD
  refine ⟨⟨_, h⟩, by decide, by decide, settingMap, ?_,
    hurl "basicBlogURL" rfl (Or.inl rfl) (by decide) (by decide),
    hurl "BasicBlogURL" rfl (Or.inr (by decide)) (by decide) (by decide), hhead, hHEAD⟩
  rw [h]
  exact hset

/-- C8 as stated fails. In the sample environment `fillCommon` completes; the
trusted-HTML setting `basicHeader` is bound to a string under `basicHeader` and
to a `template.HTML` value under `BasicHeader`, which are not identical values;
and the setting `BasicLogoURL = "old.png"`, whose name is the capitalized form
of the later setting `basicLogoURL`, is bound to `logo.png` under its own name. -/
theorem trusted_and_shadowed_settings_differ :
    (⟨"basicHeader", "<b>h</b>"⟩ : Setting) ∈ sampleSettings ∧
    (⟨"BasicLogoURL", "old.png"⟩ : Setting) ∈ sampleSettings ∧
    asciiTitle "basicHeader" = "BasicHeader" ∧
    (∃ c1, fillCommon sampleEnv aliceContext = Res.ok () c1) ∧
    ∃ settingMap,
      (fillCommon sampleEnv aliceContext).ctx.dataModel.get "Setting" =
        some (DMVal.settingMap settingMap) ∧
      settingMap.get "basicHeader" = some (Val.str "<b>h</b>") ∧
      settingMap.get "BasicHeader" = some (Val.html "<b>h</b>") ∧
      settingMap.get "BasicLogoURL" = some (Val.str "logo.png") := by
  have h := sampleEnv_fillCommon aliceContext ⟨"alice", 1⟩ (by decide) (by decide)
  refine ⟨by decide, by decide, by decide, ⟨_, h⟩,
    trustedMap sampleEnv (settingsLoop sampleEnv sampleSettings [])
      "<b>h</b>" "<i>f</i>" "hello" "-- a", ?_, by decide, by decide, by decide⟩
  rw [h]
  simp [Res.ctx, assembledModel, GoMap.get_set]

/-! ## Content resolution -/

/-- C4. For a request whose tenant name `n` resolves to `blogAdmin`, whose
assembly by `fillCommon` completes (in `c1`) and whose URI holds the tenant
name (so that the remainder `raw` exists), `resolveBlog` returns, having made
exactly one article lookup, for the path `P` obtained from the remainder, and
exactly one of two things according to its result. Found: the article is
stored under `article`, the rendering action is invoked once, the chain is
aborted and the next handler is not run. Not found: the next handler is run,
no `article` key is set, nothing is rendered and the chain is not aborted. In both
cases the events `evs` of the assembly come before the lookup and contain no
routing event, and the DataModel is the one `fillCommon` assembled, with all
nine required keys. -/
theorem resolveBlog_article_or_next (E : Env) (c c1 : Context) (n raw first : String)
    (more : List String) (blogAdmin : User)
    (hparam : (GoMap.get c.Params "username").getD "" = n) (hn : n ≠ "")
    (hT : E.GetUserByName n = some blogAdmin)
    (hfill : fillCommon E
      { c with
        Keys := c.Keys.set "blogAdmin" (CtxVal.user blogAdmin)
        trace := c.trace ++ [Event.GetUserByName n] } = Res.ok () c1)
    (hsplit : Split c.RequestURI n = first :: raw :: more) :
    ∃ evs, (∀ e ∈ evs, Event.isRouting e = false) ∧
      (∀ k ∈ ["Setting", "I18n", "Statistic", "Navigations", "MostUseCategories", "MostUseTags",
          "MostViewArticles", "RecentComments", "MostCommentArticles"],
        ∃ v, c1.dataModel.get k = some v) ∧
      match E.GetArticleByPath (cutQuery (TrimSpace raw)) with
      | some article =>
        resolveBlog E c =
          Res.ok ()
            { c with
              Keys := ((c.Keys.set "blogAdmin" (CtxVal.user blogAdmin)).set "dataModel"
                CtxVal.dataModelPtr).set "article" (CtxVal.article article)
              dataModel := c1.dataModel
              aborted := true
              trace := c.trace ++ [Event.GetUserByName n] ++ evs ++
                [Event.GetArticleByPath (cutQuery (TrimSpace raw)), Event.showArticleAction] }
      | none =>
        resolveBlog E c =
          Res.ok ()
            { c with
              Keys := (c.Keys.set "blogAdmin" (CtxVal.user blogAdmin)).set "dataModel"
                CtxVal.dataModelPtr
              dataModel := c1.dataModel
              trace := c.trace ++ [Event.GetUserByName n] ++ evs ++
                [Event.GetArticleByPath (cutQuery (TrimSpace raw)), Event.next] } := by
  obtain ⟨_, _, _, _, _, evs, _, _, _, _, _, _, hP, hU, hK, hS, hA, hTr, hev, _, hkeys⟩ :=
    fillCommon_inv E _ c1 hfill
  refine ⟨evs, hev, ?_, ?_⟩
  · intro k hk
    exact Option.isSome_iff_exists.1 (hkeys k hk)
  · rw [resolveBlog_run E c c1 n raw first more blogAdmin hparam hn hT hfill hsplit]
    obtain ⟨p1, u1, k1, d1, s1, a1, t1⟩ := c1
    simp only at hP hU hK hS hA hTr
    subst hP hU hK hS hA hTr
    cases E.GetArticleByPath (cutQuery (TrimSpace raw)) <;> rfl

/-- C4 at concrete inputs: `/alice/hello-world` resolves to the stored article,
which is set in the context, rendered once, and the chain is aborted;
`/alice/nonexistent` finds no article and control passes to the next handler;
in both runs one lookup is made. -/
theorem resolveBlog_article_or_next_witness :
    ((resolveBlog sampleEnv (freshContext "/alice/hello-world" "alice")).ctx.Keys.get "article" =
        some (CtxVal.article ⟨"Hello", "/hello-world", 0⟩) ∧
      (resolveBlog sampleEnv (freshContext "/alice/hello-world" "alice")).ctx.aborted = true ∧
      (resolveBlog sampleEnv (freshContext "/alice/hello-world" "alice")).ctx.trace.filter
          Event.isRouting =
        [Event.GetUserByName "alice", Event.GetArticleByPath "/hello-world",
         Event.showArticleAction]) ∧
    ((resolveBlog sampleEnv (freshContext "/alice/nonexistent" "alice")).ctx.Keys.get "article" =
        none ∧
      (resolveBlog sampleEnv (freshContext "/alice/nonexistent" "alice")).ctx.aborted = false ∧
      (resolveBlog sampleEnv (freshContext "/alice/nonexistent" "alice")).ctx.trace.filter
          Event.isRouting =
        [Event.GetUserByName "alice", Event.GetArticleByPath "/nonexistent", Event.next]) := by
  obtain ⟨evs1, hev1, -, h1⟩ := resolveBlog_article_or_next sampleEnv
    (freshContext "/alice/hello-world" "alice") _ "alice" "/hello-world" "/" [] ⟨"alice", 1⟩
    (by decide) (by decide) (by decide)
    (sampleEnv_fillCommon _ ⟨"alice", 1⟩ (by decide) (by decide)) (by decide)
  obtain ⟨evs2, hev2, -, h2⟩ := resolveBlog_article_or_next sampleEnv
    (freshContext "/alice/nonexistent" "alice") _ "alice" "/nonexistent" "/" [] ⟨"alice", 1⟩
    (by decide) (by decide) (by decide)
    (sampleEnv_fillCommon _ ⟨"alice", 1⟩ (by decide) (by decide)) (by decide)
  have hf : ∀ evs : List Event, (∀ e ∈ evs, Event.isRouting e = false) →
      evs.filter Event.isRouting = [] := by
    intro evs hevs
    exact List.filter_eq_nil_iff.2 (fun e he => by simp [hevs e he])
  have p1 : sampleEnv.GetArticleByPath (cutQuery (TrimSpace "/hello-world")) =
      some ⟨"Hello", "/hello-world", 0⟩ := by decide
  have p2 : sampleEnv.GetArticleByPath (cutQuery (TrimSpace "/nonexistent")) = none := by decide
  have q1 : cutQuery (TrimSpace "/hello-world") = "/hello-world" := by decide
  have q2 : cutQuery (TrimSpace "/nonexistent") = "/nonexistent" := by decide
  rw [p1] at h1
  rw [p2] at h2
  simp only at h1 h2
  rw [h1, h2, q1, q2]
  refine ⟨⟨rfl, rfl, ?_⟩, ⟨rfl, rfl, ?_⟩⟩
  · simp [Res.ctx, freshContext, List.filter_append, hf evs1 hev1, Event.isRouting]
  · simp [Res.ctx, freshContext, List.filter_append, hf evs2 hev2, Event.isRouting]

/-- C2, evaluated. The remainder path handed to the article lookup is the
piece between the first and the second occurrence of the tenant name, trimmed
and then cut at a `?` that is not its first character. For
`/alice/alice-post` the lookup gets `/` (the rest after the prefix is
`/alice-post`); for `/alice?x=1` it gets `?x=1` (the rest without its query is
empty); for a no-break space before the `?` it gets the path with that space
still at its end. -/
theorem resolveBlog_remainder_path_slips :
    lookupPaths (resolveBlog sampleEnv (freshContext "/alice/alice-post" "alice")).ctx.trace =
      ["/"] ∧
    lookupPaths (resolveBlog sampleEnv (freshContext "/alice?x=1" "alice")).ctx.trace =
      ["?x=1"] ∧
    lookupPaths (resolveBlog sampleEnv (freshContext "/alice/post\u00a0?x=1" "alice")).ctx.trace =
      ["/post\u00a0"] := by
  refine ⟨?_, ?_, ?_⟩
  · rw [resolveBlog_run sampleEnv (freshContext "/alice/alice-post" "alice") _ "alice" "/" "/"
      ["-post"] ⟨"alice", 1⟩ (by decide) (by decide) (by decide)
      (sampleEnv_fillCommon _ ⟨"alice", 1⟩ (by decide) (by decide)) (by decide)]
    decide
  · rw [resolveBlog_run sampleEnv (freshContext "/alice?x=1" "alice") _ "alice" "?x=1" "/"
      [] ⟨"alice", 1⟩ (by decide) (by decide) (by decide)
      (sampleEnv_fillCommon _ ⟨"alice", 1⟩ (by decide) (by decide)) (by decide)]
    decide
  · rw [resolveBlog_run sampleEnv (freshContext "/alice/post\u00a0?x=1" "alice") _ "alice"
      "/post\u00a0?x=1" "/" [] ⟨"alice", 1⟩ (by decide) (by decide) (by decide)
      (sampleEnv_fillCommon _ ⟨"alice", 1⟩ (by decide) (by decide)) (by decide)]
    decide

/-- C3, evaluated. `alice` owns blog 1 and `bob` blog 2; the requests
`/alice/hello-world` and `/bob/hello-world` have the same remainder path. Both
runs query the article collaborator with that path alone, and both resolve the
same article. -/
theorem article_lookup_ignores_tenant :
    sampleEnv.GetUserByName "alice" = some ⟨"alice", 1⟩ ∧
    sampleEnv.GetUserByName "bob" = some ⟨"bob", 2⟩ ∧
    (resolveBlog sampleEnv (freshContext "/alice/hello-world" "alice")).ctx.trace.filter
        (fun e => e matches Event.GetArticleByPath _) =
      [Event.GetArticleByPath "/hello-world"] ∧
    (resolveBlog sampleEnv (freshContext "/bob/hello-world" "bob")).ctx.trace.filter
        (fun e => e matches Event.GetArticleByPath _) =
      [Event.GetArticleByPath "/hello-world"] ∧
    (resolveBlog sampleEnv (freshContext "/alice/hello-world" "alice")).ctx.Keys.get "article" =
      some (CtxVal.article ⟨"Hello", "/hello-world", 0⟩) ∧
    (resolveBlog sampleEnv (freshContext "/bob/hello-world" "bob")).ctx.Keys.get "article" =
      some (CtxVal.article ⟨"Hello", "/hello-world", 0⟩) := by
  have ha := resolveBlog_run sampleEnv (freshContext "/alice/hello-world" "alice") _ "alice"
    "/hello-world" "/" [] ⟨"alice", 1⟩ (by decide) (by decide) (by decide)
    (sampleEnv_fillCommon _ ⟨"alice", 1⟩ (by decide) (by decide)) (by decide)
  have hb := resolveBlog_run sampleEnv (freshContext "/bob/hello-world" "bob") _ "bob"
    "/hello-world" "/" [] ⟨"bob", 2⟩ (by decide) (by decide) (by decide)
    (sampleEnv_fillCommon _ ⟨"bob", 2⟩ (by decide) (by decide)) (by decide)
  rw [ha, hb]
  decide

end Pipe
